import Mathlib

/-!
Verification of the BotVankor payroll core: a shallow embedding of
`app/services/salary_service.py` and `app/services/annual_bonus_service.py`.

Modelling conventions:
* Python `Decimal` values are modelled as exact rationals (`ℚ`); the spec
  (section 3) requires exact base-10 arbitrary-precision arithmetic, and every
  constant of the source (`2/3` included) is an exact rational.
* A Python optional parameter (`Optional[Decimal] = None`) is an `Option ℚ`.
* The idiom `x = x or default` is `pyOr`: Python treats a zero `Decimal` as
  falsy, so a supplied zero is replaced by the default, exactly as the source
  does.
* `raise SomeError(message)` is modelled with an inductive error type, one
  constructor per raise site, together with a `message` function holding the
  source's message strings; a calculator returns `Except E Result`.
* `dict[int, Decimal]` (the per-month days mapping) is an association list
  `List (ℕ × ℚ)`; a real Python dict additionally has no duplicate keys, which
  theorems take as a hypothesis where it matters.
* The report builders in the source grow one string with `report += piece`;
  here each `+=` contributes one element of a `List String` and the report is
  the concatenation (`String.join`), which is the same string.
-/

/-- Python `x or d` for an optional Decimal: `None` and zero are falsy. -/
def pyOr (x : Option ℚ) (d : ℚ) : ℚ :=
  match x with
  | none => d
  | some v => if v = 0 then d else v

/-- `x is not None and x < 0` from the validation routines. -/
def optNeg (x : Option ℚ) : Bool :=
  match x with
  | none => false
  | some v => decide (v < 0)

/-- `x is not None and (x < 0 or x > 100)` from the validation routines. -/
def optOutsidePercent (x : Option ℚ) : Bool :=
  match x with
  | none => false
  | some v => decide (v < 0 ∨ 100 < v)

/-- Floor of a rational, computed from the reduced fraction. -/
def qfloor (q : ℚ) : ℤ := Int.fdiv q.num q.den

/-- Round to the nearest integer, ties to even: the rounding Python's
`Decimal.__format__` applies (ROUND_HALF_EVEN). -/
def roundHalfEven (q : ℚ) : ℤ :=
  let f := qfloor q
  let r := q - (f : ℚ)
  if r < 1/2 then f
  else if 1/2 < r then f + 1
  else if 2 ∣ f then f else f + 1

/-- Left-pad a digit string with zeros to width `k`. -/
def padZeros (s : String) (k : ℕ) : String :=
  if s.length ≥ k then s else String.mk (List.replicate (k - s.length) '0') ++ s

/-- Python `f"{q:.kf}"` on a Decimal modelled as a rational: fixed-point
notation with `k` fractional digits, half-even rounding, no decimal point
when `k = 0`. -/
def fmtFixed (q : ℚ) (k : ℕ) : String :=
  let n := roundHalfEven (q * (10 : ℚ) ^ k)
  let sign := if n < 0 then "-" else ""
  let a := n.natAbs
  if k = 0 then sign ++ toString (a / 10 ^ k)
  else sign ++ toString (a / 10 ^ k) ++ "." ++ padZeros (toString (a % 10 ^ k)) k

/-- First character of a string (used to tell report lines apart). -/
def strHead (s : String) : Char := s.data.headD ' '

namespace SalaryService

/-! Embedding of `app/services/salary_service.py`. -/
def MONTHLY_BONUS_RATE : ℚ := 33

def NIGHT_SHIFT_RATE : ℚ := 40

def TAX_RATE : ℚ := 13

def HOURS_PER_DAY : ℚ := 11

def TRAVEL_HOURS_PER_DAY : ℚ := 8

def IDLE_RATE : ℚ := 2 / 3

def SHIFT_METHOD_RATE : ℚ := 740

/-- One constructor per `raise SalaryCalculationError(...)` site of
`validate_salary_inputs`. -/
inductive SalaryCalculationError
  | hourlyRateNotPositive
  | daysWorkedNegative
  | daysWorkedOverMax
  | nightHoursNegative
  | idleDaysNegative
  | travelDaysNegative
  | holidayDaysNegative
  | additionalPaymentsNegative
  | regionalAllowanceOutOfRange
  | northernAllowanceOutOfRange
deriving DecidableEq

/-- The human-readable reason each raise site carries. -/
def SalaryCalculationError.message : SalaryCalculationError → String
  | .hourlyRateNotPositive => "Часовая ставка должна быть больше нуля"
  | .daysWorkedNegative => "Количество отработанных дней не может быть отрицательным"
  | .daysWorkedOverMax => "Количество отработанных дней превышает разумный максимум (365 дней)"
  | .nightHoursNegative => "Количество ночных часов не может быть отрицательным"
  | .idleDaysNegative => "Количество дней простоя не может быть отрицательным"
  | .travelDaysNegative => "Количество дней в пути не может быть отрицательным"
  | .holidayDaysNegative => "Количество праздничных дней не может быть отрицательным"
  | .additionalPaymentsNegative => "Доплаты не могут быть отрицательными"
  | .regionalAllowanceOutOfRange => "Региональная надбавка должна быть от 0 до 100%"
  | .northernAllowanceOutOfRange => "Северная надбавка должна быть от 0 до 100%"

/-- The keyword arguments of `calculate_salary` / `validate_salary_inputs`. -/
structure SalaryInput where
  hourly_rate : ℚ
  days_worked : ℚ
  night_hours : Option ℚ
  idle_days : Option ℚ
  travel_days : Option ℚ
  holiday_days : Option ℚ
  additional_payments : Option ℚ
  regional_allowance_rate : Option ℚ
  northern_allowance_rate : Option ℚ
deriving DecidableEq

/-- `validate_salary_inputs`, lines 26-84: the first violated check raises;
`none` means the function returns normally. -/
def validate_salary_inputs (i : SalaryInput) : Option SalaryCalculationError :=
  if i.hourly_rate ≤ 0 then some .hourlyRateNotPositive
  else if i.days_worked < 0 then some .daysWorkedNegative
  else if 365 < i.days_worked then some .daysWorkedOverMax
  else if optNeg i.night_hours then some .nightHoursNegative
  else if optNeg i.idle_days then some .idleDaysNegative
  else if optNeg i.travel_days then some .travelDaysNegative
  else if optNeg i.holiday_days then some .holidayDaysNegative
  else if optNeg i.additional_payments then some .additionalPaymentsNegative
  else if optOutsidePercent i.regional_allowance_rate then some .regionalAllowanceOutOfRange
  else if optOutsidePercent i.northern_allowance_rate then some .northernAllowanceOutOfRange
  else none

/-- The dictionary `calculate_salary` returns (lines 222-246). -/
structure SalaryResult where
  hourly_rate : ℚ
  days_worked : ℚ
  night_hours : ℚ
  idle_days : ℚ
  travel_days : ℚ
  holiday_days : ℚ
  hours_by_timesheet : ℚ
  salary_by_position : ℚ
  holiday_payment : ℚ
  idle_payment : ℚ
  travel_payment : ℚ
  shift_method_payment : ℚ
  night_shift_payment : ℚ
  monthly_bonus : ℚ
  regional_allowance_rate : ℚ
  regional_allowance : ℚ
  northern_allowance_rate : ℚ
  northern_allowance : ℚ
  additional_payments : ℚ
  total_accrued : ℚ
  taxable_base : ℚ
  tax : ℚ
  net : ℚ
deriving DecidableEq

/-- Lines 171-246 of `calculate_salary`: the derivation steps that run after
validation, on the already-defaulted values. -/
def salaryDerivation (hourly_rate days_worked night_hours idle_days travel_days holiday_days
    additional_payments regional_allowance_rate northern_allowance_rate : ℚ) : SalaryResult :=
  let hours_by_timesheet := days_worked * HOURS_PER_DAY
  let salary_by_position := hours_by_timesheet * hourly_rate
  let holiday_payment := holiday_days * hourly_rate * HOURS_PER_DAY
  let idle_payment := idle_days * HOURS_PER_DAY * hourly_rate * IDLE_RATE
  let travel_payment := travel_days * hourly_rate * TRAVEL_HOURS_PER_DAY
  let shift_method_payment := (days_worked + travel_days) * SHIFT_METHOD_RATE
  let night_shift_payment := night_hours * hourly_rate * (NIGHT_SHIFT_RATE / 100)
  let monthly_bonus := (salary_by_position + idle_payment + night_shift_payment) *
    (MONTHLY_BONUS_RATE / 100)
  let regional_allowance := (salary_by_position + holiday_payment + night_shift_payment +
    monthly_bonus + idle_payment) * (regional_allowance_rate / 100)
  let northern_allowance := (salary_by_position + holiday_payment + night_shift_payment +
    monthly_bonus + idle_payment) * (northern_allowance_rate / 100)
  let total_accrued := salary_by_position + holiday_payment + idle_payment + travel_payment +
    shift_method_payment + night_shift_payment + monthly_bonus + regional_allowance +
    northern_allowance + additional_payments
  let taxable_base := total_accrued - shift_method_payment - travel_payment
  let tax := taxable_base * (TAX_RATE / 100)
  let net := total_accrued - tax
  { hourly_rate := hourly_rate, days_worked := days_worked, night_hours := night_hours,
    idle_days := idle_days, travel_days := travel_days, holiday_days := holiday_days,
    hours_by_timesheet := hours_by_timesheet, salary_by_position := salary_by_position,
    holiday_payment := holiday_payment, idle_payment := idle_payment,
    travel_payment := travel_payment, shift_method_payment := shift_method_payment,
    night_shift_payment := night_shift_payment, monthly_bonus := monthly_bonus,
    regional_allowance_rate := regional_allowance_rate, regional_allowance := regional_allowance,
    northern_allowance_rate := northern_allowance_rate, northern_allowance := northern_allowance,
    additional_payments := additional_payments, total_accrued := total_accrued,
    taxable_base := taxable_base, tax := tax, net := net }

/-- `calculate_salary`, lines 87-246: validate, default the optionals with
`or`, then run the derivation. -/
def calculate_salary (i : SalaryInput) : Except SalaryCalculationError SalaryResult :=
  match validate_salary_inputs i with
  | some e => .error e
  | none =>
    .ok (salaryDerivation i.hourly_rate i.days_worked (pyOr i.night_hours 0)
      (pyOr i.idle_days 0) (pyOr i.travel_days 0) (pyOr i.holiday_days 0)
      (pyOr i.additional_payments 0) (pyOr i.regional_allowance_rate 0)
      (pyOr i.northern_allowance_rate 0))

/-- `format_salary_report`, lines 249-306: each `report +=` of the source is
one element; conditional `+=`s become conditional singleton sublists. -/
def salaryReportLines (c : SalaryResult) : List String :=
  ["💰 Расчёт зарплаты (вахтовый метод):\n\n",
   "📊 Часовая ставка: " ++ fmtFixed c.hourly_rate 2 ++ " ₽/час\n",
   "📅 Отработано дней: " ++ fmtFixed c.days_worked 0 ++ "\n"]
  ++ (if 0 < c.idle_days then
      ["⏸️ Количество простоя: " ++ fmtFixed c.idle_days 0 ++ " дн.\n"] else [])
  ++ ["⏰ Часов по табелю: " ++ fmtFixed c.hours_by_timesheet 1 ++ "\n\n",
      "📈 Начисления:\n",
      "💵 Оплата по окладу: " ++ fmtFixed c.salary_by_position 2 ++ " ₽\n"]
  ++ (if 0 < c.holiday_days then
      ["🎉 Доплата за праздники (" ++ fmtFixed c.holiday_days 0 ++ " дн.): " ++
        fmtFixed c.holiday_payment 2 ++ " ₽\n"] else [])
  ++ (if 0 < c.idle_days then
      ["⏸️ Оплата простоя (" ++ fmtFixed c.idle_days 0 ++ " дн.): " ++
        fmtFixed c.idle_payment 2 ++ " ₽\n"] else [])
  ++ (if 0 < c.travel_days then
      ["🚗 Доплата за дни в пути (" ++ fmtFixed c.travel_days 0 ++ " дн.): " ++
        fmtFixed c.travel_payment 2 ++ " ₽\n"] else [])
  ++ ["🏕️ Доплата за вахтовый метод: " ++ fmtFixed c.shift_method_payment 2 ++ " ₽\n"]
  ++ (if 0 < c.night_hours then
      ["🌙 Доплата за ночные (" ++ fmtFixed c.night_hours 1 ++ " ч): " ++
        fmtFixed c.night_shift_payment 2 ++ " ₽\n"] else [])
  ++ (if 0 < c.monthly_bonus then
      ["🎁 Премия месячная (33%): " ++ fmtFixed c.monthly_bonus 2 ++ " ₽\n"] else [])
  ++ (if 0 < c.regional_allowance_rate then
      ["📍 Региональная надбавка (" ++ fmtFixed c.regional_allowance_rate 1 ++ "%): " ++
        fmtFixed c.regional_allowance 2 ++ " ₽\n"] else [])
  ++ (if 0 < c.northern_allowance_rate then
      ["❄️ Северная надбавка (" ++ fmtFixed c.northern_allowance_rate 1 ++ "%): " ++
        fmtFixed c.northern_allowance 2 ++ " ₽\n"] else [])
  ++ (if 0 < c.additional_payments then
      ["➕ Прочие доплаты: " ++ fmtFixed c.additional_payments 2 ++ " ₽\n"] else [])
  ++ ["\n",
      "📊 Всего начислено: " ++ fmtFixed c.total_accrued 2 ++ " ₽\n",
      "📉 Налог (13%): " ++ fmtFixed c.tax 2 ++ " ₽\n",
      "✅ ЗП к выплате: " ++ fmtFixed c.net 2 ++ " ₽"]

/-- `format_salary_report` as the single string the source returns. -/
def format_salary_report (c : SalaryResult) : String :=
  String.join (salaryReportLines c)

end SalaryService

namespace AnnualBonusService

/-! Embedding of `app/services/annual_bonus_service.py`. -/
def HOURS_PER_DAY : ℚ := 11

def DEFAULT_MONTHLY_BONUS_RATE : ℚ := 33

def DEFAULT_KPI_COEFFICIENT : ℚ := 1

def DEFAULT_CORRECTION_COEFFICIENT : ℚ := 1

def TAX_RATE : ℚ := 13

def MONTHS_IN_YEAR : ℚ := 12

/-- One constructor per `raise AnnualBonusCalculationError(...)` site; the
three month-indexed ones carry the offending month number the source
interpolates into the message. -/
inductive AnnualBonusCalculationError
  | hourlyRateNotPositive
  | monthsInCompanyOutOfRange
  | monthlyDaysWrongSize
  | monthNumberOutOfRange (m : ℕ)
  | monthDaysNegative (m : ℕ)
  | monthDaysOverMax (m : ℕ)
  | monthlyBonusRateOutOfRange
  | targetRateOutOfRange
  | kpiNegative
  | correctionNegative
  | regionalAllowanceOutOfRange
  | northernAllowanceOutOfRange
  | missingTargetRate
deriving DecidableEq

/-- The human-readable reason each raise site carries. -/
def AnnualBonusCalculationError.message : AnnualBonusCalculationError → String
  | .hourlyRateNotPositive => "Часовая ставка должна быть больше нуля"
  | .monthsInCompanyOutOfRange => "Количество месяцев в компании должно быть от 1 до 12"
  | .monthlyDaysWrongSize => "Должно быть указано количество дней для всех 12 месяцев"
  | .monthNumberOutOfRange m => "Номер месяца должен быть от 1 до 12, получен: " ++ toString m
  | .monthDaysNegative m =>
      "Количество дней в месяце " ++ toString m ++ " не может быть отрицательным"
  | .monthDaysOverMax m => "Количество дней в месяце " ++ toString m ++ " не может быть больше 31"
  | .monthlyBonusRateOutOfRange => "Процент ежемесячной премии должен быть от 0 до 100%"
  | .targetRateOutOfRange => "Целевой % годового вознаграждения должен быть от 0 до 100%"
  | .kpiNegative => "Коэффициент выполнения (KPI) не может быть отрицательным"
  | .correctionNegative => "Корректирующий коэффициент не может быть отрицательным"
  | .regionalAllowanceOutOfRange => "Региональная надбавка должна быть от 0 до 100%"
  | .northernAllowanceOutOfRange => "Северная надбавка должна быть от 0 до 100%"
  | .missingTargetRate =>
      "Целевой % годового вознаграждения по должности (E104) обязателен для расчёта"

/-- The keyword arguments of `calculate_annual_bonus`. -/
structure AnnualBonusInput where
  hourly_rate : ℚ
  months_in_company : ℚ
  monthly_days : List (ℕ × ℚ)
  monthly_bonus_rate : Option ℚ
  target_annual_bonus_rate : Option ℚ
  kpi_coefficient : Option ℚ
  correction_coefficient : Option ℚ
  regional_allowance_rate : Option ℚ
  northern_allowance_rate : Option ℚ
deriving DecidableEq

/-- The `for month_num, days in monthly_days.items()` loop of
`validate_annual_bonus_inputs` (lines 61-67): first violation raises. -/
def validateMonthEntries : List (ℕ × ℚ) → Option AnnualBonusCalculationError
  | [] => none
  | (m, d) :: rest =>
    if m < 1 ∨ 12 < m then some (.monthNumberOutOfRange m)
    else if d < 0 then some (.monthDaysNegative m)
    else if 31 < d then some (.monthDaysOverMax m)
    else validateMonthEntries rest

/-- `validate_annual_bonus_inputs`, lines 24-87. -/
def validate_annual_bonus_inputs (hourly_rate months_in_company : ℚ)
    (monthly_days : List (ℕ × ℚ))
    (monthly_bonus_rate target_annual_bonus_rate kpi_coefficient correction_coefficient
      regional_allowance_rate northern_allowance_rate : Option ℚ) :
    Option AnnualBonusCalculationError :=
  if hourly_rate ≤ 0 then some .hourlyRateNotPositive
  else if months_in_company < 1 ∨ 12 < months_in_company then some .monthsInCompanyOutOfRange
  else if monthly_days.length ≠ 12 then some .monthlyDaysWrongSize
  else (validateMonthEntries monthly_days).orElse (fun _ =>
    if optOutsidePercent monthly_bonus_rate then some .monthlyBonusRateOutOfRange
    else if optOutsidePercent target_annual_bonus_rate then some .targetRateOutOfRange
    else if optNeg kpi_coefficient then some .kpiNegative
    else if optNeg correction_coefficient then some .correctionNegative
    else if optOutsidePercent regional_allowance_rate then some .regionalAllowanceOutOfRange
    else if optOutsidePercent northern_allowance_rate then some .northernAllowanceOutOfRange
    else none)

/-- One row of the per-month breakdown dictionary. -/
structure MonthData where
  name : String
  days : ℚ
  hours : ℚ
  salary : ℚ
  bonus : ℚ
  base : ℚ
deriving DecidableEq

/-- The `month_names` dictionary (lines 180-184); months outside 1-12 are
never looked up by the source's `range(1, 13)` loop. -/
def month_names (m : ℕ) : String :=
  match m with
  | 1 => "Январь" | 2 => "Февраль" | 3 => "Март" | 4 => "Апрель"
  | 5 => "Май" | 6 => "Июнь" | 7 => "Июль" | 8 => "Август"
  | 9 => "Сентябрь" | 10 => "Октябрь" | 11 => "Ноябрь" | 12 => "Декабрь"
  | _ => ""

/-- The body of the `for month_num in range(1, 13)` loop (lines 186-210):
`monthly_days.get(month_num, 0)` and the four per-month steps. -/
def monthRow (hourly_rate monthly_bonus_rate : ℚ) (monthly_days : List (ℕ × ℚ))
    (month_num : ℕ) : MonthData :=
  let days := (monthly_days.lookup month_num).getD 0
  let hours := days * HOURS_PER_DAY
  let salary := hours * hourly_rate
  let bonus := salary * (monthly_bonus_rate / 100)
  let base := salary + bonus
  { name := month_names month_num, days := days, hours := hours, salary := salary,
    bonus := bonus, base := base }

/-- The dictionary `calculate_annual_bonus` returns (lines 242-260); the
per-month dictionary keyed 1..12 is the list entry at index `month - 1`. -/
structure AnnualBonusResult where
  hourly_rate : ℚ
  months_in_company : ℚ
  monthly_bonus_rate : ℚ
  target_annual_bonus_rate : ℚ
  kpi_coefficient : ℚ
  correction_coefficient : ℚ
  monthly_data : List MonthData
  average_monthly_base : ℚ
  annual_base : ℚ
  annual_reward_without_allowances : ℚ
  regional_allowance_rate : ℚ
  regional_allowance : ℚ
  northern_allowance_rate : ℚ
  northern_allowance : ℚ
  total_accrued : ℚ
  tax : ℚ
  net : ℚ
deriving DecidableEq

/-- Lines 176-260 of `calculate_annual_bonus`: the derivation that runs once
validation and the required-parameter check have passed. -/
def annualDerivation (hourly_rate months_in_company : ℚ) (monthly_days : List (ℕ × ℚ))
    (monthly_bonus_rate target_annual_bonus_rate kpi_coefficient correction_coefficient
      regional_allowance_rate northern_allowance_rate : ℚ) : AnnualBonusResult :=
  let monthly_data := (List.range 12).map
    (fun k => monthRow hourly_rate monthly_bonus_rate monthly_days (k + 1))
  let total_base := (monthly_data.map (fun md => md.base)).sum
  let average_monthly_base := total_base / months_in_company
  let annual_base := average_monthly_base * MONTHS_IN_YEAR
  let annual_reward_without_allowances := annual_base * (target_annual_bonus_rate / 100) *
    kpi_coefficient * correction_coefficient * (months_in_company / MONTHS_IN_YEAR)
  let regional_allowance := annual_reward_without_allowances * (regional_allowance_rate / 100)
  let northern_allowance := annual_reward_without_allowances * (northern_allowance_rate / 100)
  let total_accrued := annual_reward_without_allowances + regional_allowance + northern_allowance
  let tax := total_accrued * (TAX_RATE / 100)
  let net := total_accrued - tax
  { hourly_rate := hourly_rate, months_in_company := months_in_company,
    monthly_bonus_rate := monthly_bonus_rate,
    target_annual_bonus_rate := target_annual_bonus_rate,
    kpi_coefficient := kpi_coefficient, correction_coefficient := correction_coefficient,
    monthly_data := monthly_data, average_monthly_base := average_monthly_base,
    annual_base := annual_base,
    annual_reward_without_allowances := annual_reward_without_allowances,
    regional_allowance_rate := regional_allowance_rate,
    regional_allowance := regional_allowance,
    northern_allowance_rate := northern_allowance_rate,
    northern_allowance := northern_allowance, total_accrued := total_accrued,
    tax := tax, net := net }

/-- `calculate_annual_bonus`, lines 90-260: default the optionals with `or`
(lines 153-158), validate the defaulted values (lines 160-171), reject a
missing `target_annual_bonus_rate` (lines 173-174), then derive. -/
def calculate_annual_bonus (i : AnnualBonusInput) :
    Except AnnualBonusCalculationError AnnualBonusResult :=
  let monthly_bonus_rate := pyOr i.monthly_bonus_rate DEFAULT_MONTHLY_BONUS_RATE
  let kpi_coefficient := pyOr i.kpi_coefficient DEFAULT_KPI_COEFFICIENT
  let correction_coefficient := pyOr i.correction_coefficient DEFAULT_CORRECTION_COEFFICIENT
  let regional_allowance_rate := pyOr i.regional_allowance_rate 0
  let northern_allowance_rate := pyOr i.northern_allowance_rate 0
  match validate_annual_bonus_inputs i.hourly_rate i.months_in_company i.monthly_days
      (some monthly_bonus_rate) i.target_annual_bonus_rate (some kpi_coefficient)
      (some correction_coefficient) (some regional_allowance_rate)
      (some northern_allowance_rate) with
  | some e => .error e
  | none =>
    match i.target_annual_bonus_rate with
    | none => .error .missingTargetRate
    | some target_annual_bonus_rate =>
      .ok (annualDerivation i.hourly_rate i.months_in_company i.monthly_days
        monthly_bonus_rate target_annual_bonus_rate kpi_coefficient correction_coefficient
        regional_allowance_rate northern_allowance_rate)

/-- `format_annual_bonus_report`, lines 263-314, with the three `+=` of one
month's row merged into that month's single line (string concatenation). -/
def annualReportLines (c : AnnualBonusResult) : List String :=
  ["🎁 Расчёт 13-й зарплаты (годовое вознаграждение):\n\n",
   "📊 Часовая ставка: " ++ fmtFixed c.hourly_rate 2 ++ " ₽/час\n",
   "📅 Месяцев в компании за год: " ++ fmtFixed c.months_in_company 0 ++ "\n",
   "📈 Средний % ежемесячной премии: " ++ fmtFixed c.monthly_bonus_rate 1 ++ "%\n",
   "🎯 Целевой % годового вознаграждения: " ++ fmtFixed c.target_annual_bonus_rate 2 ++ "%\n",
   "📊 Коэффициент выполнения (KPI): " ++ fmtFixed c.kpi_coefficient 2 ++ "\n",
   "⚖️ Корректирующий коэффициент: " ++ fmtFixed c.correction_coefficient 2 ++ "\n\n",
   "📅 Данные по месяцам:\n"]
  ++ ((c.monthly_data.filter (fun md => 0 < md.days)).map (fun md =>
      md.name ++ ": " ++ fmtFixed md.days 0 ++ " дн. → " ++ fmtFixed md.hours 1 ++ " ч → " ++
        fmtFixed md.base 2 ++ " ₽\n"))
  ++ ["\n",
      "💰 Среднемесячная база для 13-й (E201): " ++ fmtFixed c.average_monthly_base 2 ++ " ₽\n",
      "💰 Годовая база для 13-й (E202): " ++ fmtFixed c.annual_base 2 ++ " ₽\n\n",
      "📊 Годовое вознаграждение:\n",
      "💼 Годовое вознаграждение (без РК и СН) (E210): " ++
        fmtFixed c.annual_reward_without_allowances 2 ++ " ₽\n"]
  ++ (if 0 < c.regional_allowance_rate then
      ["📍 Региональная надбавка (" ++ fmtFixed c.regional_allowance_rate 1 ++ "%) (E211): " ++
        fmtFixed c.regional_allowance 2 ++ " ₽\n"] else [])
  ++ (if 0 < c.northern_allowance_rate then
      ["❄️ Северная надбавка (" ++ fmtFixed c.northern_allowance_rate 1 ++ "%) (E212): " ++
        fmtFixed c.northern_allowance 2 ++ " ₽\n"] else [])
  ++ ["\n",
      "📊 Всего начислено (13-я) (E213): " ++ fmtFixed c.total_accrued 2 ++ " ₽\n",
      "📉 Налог (13%) (E214): " ++ fmtFixed c.tax 2 ++ " ₽\n",
      "✅ 13-я зарплата на руки (E215): " ++ fmtFixed c.net 2 ++ " ₽"]

/-- `format_annual_bonus_report` as the single string the source returns. -/
def format_annual_bonus_report (c : AnnualBonusResult) : String :=
  String.join (annualReportLines c)

end AnnualBonusService

/-! ### Validity predicates (section 3 of the specification) -/
/-- A supplied optional day/hour/payment field is nonnegative (absent is fine). -/
def OptNonneg (x : Option ℚ) : Prop :=
  match x with
  | none => True
  | some v => 0 ≤ v

/-- A supplied optional percentage field lies in [0, 100] (absent is fine). -/
def OptPercent (x : Option ℚ) : Prop :=
  match x with
  | none => True
  | some v => 0 ≤ v ∧ v ≤ 100

instance (x : Option ℚ) : Decidable (OptNonneg x) :=
  match x with
  | none => isTrue trivial
  | some v => inferInstanceAs (Decidable (0 ≤ v))

instance (x : Option ℚ) : Decidable (OptPercent x) :=
  match x with
  | none => isTrue trivial
  | some v => inferInstanceAs (Decidable (0 ≤ v ∧ v ≤ 100))

namespace SalaryService

/-- The constraints of spec section 3 for the regular calculator. -/
def ValidSalaryInput (i : SalaryInput) : Prop :=
  0 < i.hourly_rate ∧ 0 ≤ i.days_worked ∧ i.days_worked ≤ 365 ∧
  OptNonneg i.night_hours ∧ OptNonneg i.idle_days ∧ OptNonneg i.travel_days ∧
  OptNonneg i.holiday_days ∧ OptNonneg i.additional_payments ∧
  OptPercent i.regional_allowance_rate ∧ OptPercent i.northern_allowance_rate

instance (i : SalaryInput) : Decidable (ValidSalaryInput i) :=
  inferInstanceAs (Decidable (_ ∧ _))

end SalaryService

namespace AnnualBonusService

/-- The range constraints of spec section 3 for the annual-bonus calculator
(the presence of `target_annual_bonus_rate` is a separate, later check). -/
def ValidAnnualRanges (i : AnnualBonusInput) : Prop :=
  0 < i.hourly_rate ∧ 1 ≤ i.months_in_company ∧ i.months_in_company ≤ 12 ∧
  i.monthly_days.length = 12 ∧
  (∀ p ∈ i.monthly_days, 1 ≤ p.1 ∧ p.1 ≤ 12 ∧ 0 ≤ p.2 ∧ p.2 ≤ 31) ∧
  OptPercent i.monthly_bonus_rate ∧ OptPercent i.target_annual_bonus_rate ∧
  OptNonneg i.kpi_coefficient ∧ OptNonneg i.correction_coefficient ∧
  OptPercent i.regional_allowance_rate ∧ OptPercent i.northern_allowance_rate

instance (i : AnnualBonusInput) : Decidable (ValidAnnualRanges i) :=
  inferInstanceAs (Decidable (_ ∧ _))

end AnnualBonusService

namespace SalaryService

/-- Scenario A of spec section 8: hourly_rate 1000, days_worked 15, the rest
omitted. -/
def scenarioA : SalaryInput :=
  { hourly_rate := 1000, days_worked := 15, night_hours := none, idle_days := none,
    travel_days := none, holiday_days := none, additional_payments := none,
    regional_allowance_rate := none, northern_allowance_rate := none }

end SalaryService

namespace AnnualBonusService

/-- Scenario C of spec section 8: hourly_rate 1000, 12 months, 20 days on
shift every month, target rate 20, KPI and correction 1, allowances omitted. -/
def scenarioC : AnnualBonusInput :=
  { hourly_rate := 1000, months_in_company := 12,
    monthly_days := [(1, 20), (2, 20), (3, 20), (4, 20), (5, 20), (6, 20), (7, 20), (8, 20),
      (9, 20), (10, 20), (11, 20), (12, 20)],
    monthly_bonus_rate := none, target_annual_bonus_rate := some 20,
    kpi_coefficient := some 1, correction_coefficient := some 1,
    regional_allowance_rate := none, northern_allowance_rate := none }

/-- The input refuting C2 as frozen: `monthly_bonus_rate` supplied as 0. -/
def c2CexInput : AnnualBonusInput :=
  { scenarioC with monthly_bonus_rate := some 0 }

/-- The failing input for C3: Scenario C with `kpi_coefficient` explicitly
supplied as 0 — a value the validation accepts (only negatives are
rejected). -/
def c3FailingInput : AnnualBonusInput :=
  { scenarioC with kpi_coefficient := some 0 }

/-- The input refuting C5 as frozen: `target_annual_bonus_rate` absent AND
`hourly_rate` out of range. -/
def c5CexInput : AnnualBonusInput :=
  { scenarioC with hourly_rate := 0, target_annual_bonus_rate := none }

/-- The input for the C5/C9 witnesses: Scenario C with the target omitted
(and, for C9, an invalid hourly rate). -/
def c5WitnessInput : AnnualBonusInput :=
  { scenarioC with target_annual_bonus_rate := none }

end AnnualBonusService

namespace SalaryService

/-- The input refuting C8 as frozen: no days worked, but a positive regional
allowance rate. -/
def c8CexInput : SalaryInput :=
  { hourly_rate := 1000, days_worked := 0, night_hours := none, idle_days := none,
    travel_days := none, holiday_days := none, additional_payments := none,
    regional_allowance_rate := some 50, northern_allowance_rate := none }

end SalaryService

/-! ## Theorems -/

theorem pyOr_none (d : ℚ) : pyOr none d = d := rfl

theorem pyOr_zero_default (x : Option ℚ) : pyOr x 0 = x.getD 0 := by
  cases x with
  | none => rfl
  | some v => by_cases h : v = 0 <;> simp [pyOr, h]

theorem ne_of_strHead {s t : String} (h : strHead s ≠ strHead t) : s ≠ t :=
  fun e => h (congrArg strHead e)

theorem mem_ite_singleton {p : Prop} [Decidable p] {a x : String} :
    a ∈ (if p then [x] else ([] : List String)) ↔ p ∧ a = x := by
  split <;> simp_all

theorem optNeg_false_iff {x : Option ℚ} : optNeg x = false ↔ OptNonneg x := by
  cases x <;> simp [optNeg, OptNonneg, not_lt]

theorem optNeg_true_iff {x : Option ℚ} : optNeg x = true ↔ ¬ OptNonneg x := by
  cases x <;> simp [optNeg, OptNonneg, not_le]

theorem optOutsidePercent_false_iff {x : Option ℚ} :
    optOutsidePercent x = false ↔ OptPercent x := by
  cases x <;> simp [optOutsidePercent, OptPercent, not_or, not_lt]

theorem optOutsidePercent_true_iff {x : Option ℚ} :
    optOutsidePercent x = true ↔ ¬ OptPercent x := by
  cases x with
  | none => simp [optOutsidePercent, OptPercent]
  | some v =>
    simp only [optOutsidePercent, OptPercent, decide_eq_true_eq]
    constructor
    · rintro (h | h) ⟨h0, h100⟩ <;> linarith
    · intro h
      by_contra hc
      push_neg at hc
      exact h hc

namespace SalaryService

set_option maxHeartbeats 1600000 in
theorem validate_salary_inputs_eq_none_iff (i : SalaryInput) :
    validate_salary_inputs i = none ↔ ValidSalaryInput i := by
  constructor
  · intro h
    unfold validate_salary_inputs at h
    split_ifs at h with h1 h2 h3 h4 h5 h6 h7 h8 h9 h10
    all_goals try simp at h
    exact ⟨not_le.mp h1, not_lt.mp h2, not_lt.mp h3,
      optNeg_false_iff.mp (by simpa using h4), optNeg_false_iff.mp (by simpa using h5),
      optNeg_false_iff.mp (by simpa using h6), optNeg_false_iff.mp (by simpa using h7),
      optNeg_false_iff.mp (by simpa using h8),
      optOutsidePercent_false_iff.mp (by simpa using h9),
      optOutsidePercent_false_iff.mp (by simpa using h10)⟩
  · rintro ⟨v1, v2, v3, v4, v5, v6, v7, v8, v9, v10⟩
    unfold validate_salary_inputs
    split_ifs with h1 h2 h3 h4 h5 h6 h7 h8 h9 h10
    · exact absurd h1 (not_le.mpr v1)
    · exact absurd h2 (not_lt.mpr v2)
    · exact absurd h3 (not_lt.mpr v3)
    · exact absurd (optNeg_true_iff.mp h4) (not_not_intro v4)
    · exact absurd (optNeg_true_iff.mp h5) (not_not_intro v5)
    · exact absurd (optNeg_true_iff.mp h6) (not_not_intro v6)
    · exact absurd (optNeg_true_iff.mp h7) (not_not_intro v7)
    · exact absurd (optNeg_true_iff.mp h8) (not_not_intro v8)
    · exact absurd (optOutsidePercent_true_iff.mp h9) (not_not_intro v9)
    · exact absurd (optOutsidePercent_true_iff.mp h10) (not_not_intro v10)
    · rfl

theorem calculate_salary_eq_ok {i : SalaryInput} (h : ValidSalaryInput i) :
    calculate_salary i = .ok (salaryDerivation i.hourly_rate i.days_worked
      (pyOr i.night_hours 0) (pyOr i.idle_days 0) (pyOr i.travel_days 0)
      (pyOr i.holiday_days 0) (pyOr i.additional_payments 0)
      (pyOr i.regional_allowance_rate 0) (pyOr i.northern_allowance_rate 0)) := by
  unfold calculate_salary
  rw [(validate_salary_inputs_eq_none_iff i).mpr h]

theorem calculate_salary_eq_error {i : SalaryInput} {e : SalaryCalculationError}
    (h : validate_salary_inputs i = some e) : calculate_salary i = .error e := by
  unfold calculate_salary
  rw [h]

end SalaryService

namespace AnnualBonusService

theorem validateMonthEntries_eq_none_iff (l : List (ℕ × ℚ)) :
    validateMonthEntries l = none ↔ ∀ p ∈ l, 1 ≤ p.1 ∧ p.1 ≤ 12 ∧ 0 ≤ p.2 ∧ p.2 ≤ 31 := by
  induction l with
  | nil => simp [validateMonthEntries]
  | cons hd tl ih =>
    obtain ⟨m, d⟩ := hd
    unfold validateMonthEntries
    split_ifs with h1 h2 h3 <;> simp_all [not_or, not_lt] <;> omega

theorem pyOr_percent_check {x : Option ℚ} {d : ℚ} (h0 : 0 ≤ d) (h100 : d ≤ 100) :
    optOutsidePercent (some (pyOr x d)) = false ↔ OptPercent x := by
  cases x with
  | none => simp [pyOr, optOutsidePercent, OptPercent, not_or, not_lt, h0, h100, le_of_lt]
  | some v =>
    by_cases hv : v = 0 <;>
      simp_all [pyOr, optOutsidePercent, OptPercent, not_or, not_lt]

theorem pyOr_nonneg_check {x : Option ℚ} {d : ℚ} (h0 : 0 ≤ d) :
    optNeg (some (pyOr x d)) = false ↔ OptNonneg x := by
  cases x with
  | none => simp [pyOr, optNeg, OptNonneg, not_lt, h0]
  | some v =>
    by_cases hv : v = 0 <;> simp_all [pyOr, optNeg, OptNonneg, not_lt]

set_option maxHeartbeats 3200000 in
/-- Validation as `calculate_annual_bonus` invokes it — on the `or`-defaulted
values — succeeds exactly on the section-3 range constraints of the raw input. -/
theorem validate_resolved_eq_none_iff (i : AnnualBonusInput) :
    validate_annual_bonus_inputs i.hourly_rate i.months_in_company i.monthly_days
      (some (pyOr i.monthly_bonus_rate DEFAULT_MONTHLY_BONUS_RATE))
      i.target_annual_bonus_rate
      (some (pyOr i.kpi_coefficient DEFAULT_KPI_COEFFICIENT))
      (some (pyOr i.correction_coefficient DEFAULT_CORRECTION_COEFFICIENT))
      (some (pyOr i.regional_allowance_rate 0))
      (some (pyOr i.northern_allowance_rate 0)) = none ↔ ValidAnnualRanges i := by
  have hmbr0 : (0:ℚ) ≤ DEFAULT_MONTHLY_BONUS_RATE := by norm_num [DEFAULT_MONTHLY_BONUS_RATE]
  have hmbr1 : DEFAULT_MONTHLY_BONUS_RATE ≤ (100:ℚ) := by norm_num [DEFAULT_MONTHLY_BONUS_RATE]
  have hkpi : (0:ℚ) ≤ DEFAULT_KPI_COEFFICIENT := by norm_num [DEFAULT_KPI_COEFFICIENT]
  have hcorr : (0:ℚ) ≤ DEFAULT_CORRECTION_COEFFICIENT := by
    norm_num [DEFAULT_CORRECTION_COEFFICIENT]
  have h100 : (0:ℚ) ≤ 100 := by norm_num
  constructor
  · intro h
    unfold validate_annual_bonus_inputs at h
    split_ifs at h with h1 h2 h3 g1 g2 g3 g4 g5 g6
    all_goals try simp at h
    push_neg at h2
    exact ⟨not_le.mp h1, h2.1, h2.2, not_ne_iff.mp h3,
      (validateMonthEntries_eq_none_iff i.monthly_days).mp h,
      (pyOr_percent_check hmbr0 hmbr1).mp (by simpa using g1),
      optOutsidePercent_false_iff.mp (by simpa using g2),
      (pyOr_nonneg_check hkpi).mp (by simpa using g3),
      (pyOr_nonneg_check hcorr).mp (by simpa using g4),
      (pyOr_percent_check (le_refl (0:ℚ)) h100).mp (by simpa using g5),
      (pyOr_percent_check (le_refl (0:ℚ)) h100).mp (by simpa using g6)⟩
  · rintro ⟨v1, v2, v3, v4, v5, v6, v7, v8, v9, v10, v11⟩
    unfold validate_annual_bonus_inputs
    split_ifs with h1 h2 h3 g1 g2 g3 g4 g5 g6
    · exact absurd h1 (not_le.mpr v1)
    · exact absurd h2 (by push_neg; exact ⟨v2, v3⟩)
    · exact absurd h3 (not_not_intro v4)
    · exact absurd g1 (by simp [(pyOr_percent_check hmbr0 hmbr1).mpr v6])
    · exact absurd g2 (by simp [optOutsidePercent_false_iff.mpr v7])
    · exact absurd g3 (by simp [(pyOr_nonneg_check hkpi).mpr v8])
    · exact absurd g4 (by simp [(pyOr_nonneg_check hcorr).mpr v9])
    · exact absurd g5 (by simp [(pyOr_percent_check (le_refl (0:ℚ)) h100).mpr v10])
    · exact absurd g6 (by simp [(pyOr_percent_check (le_refl (0:ℚ)) h100).mpr v11])
    · rw [Option.orElse_eq_none']
      exact ⟨(validateMonthEntries_eq_none_iff i.monthly_days).mpr v5, rfl⟩

theorem calculate_annual_bonus_eq_ok {i : AnnualBonusInput} {t : ℚ}
    (hv : ValidAnnualRanges i) (ht : i.target_annual_bonus_rate = some t) :
    calculate_annual_bonus i = .ok (annualDerivation i.hourly_rate i.months_in_company
      i.monthly_days (pyOr i.monthly_bonus_rate DEFAULT_MONTHLY_BONUS_RATE) t
      (pyOr i.kpi_coefficient DEFAULT_KPI_COEFFICIENT)
      (pyOr i.correction_coefficient DEFAULT_CORRECTION_COEFFICIENT)
      (pyOr i.regional_allowance_rate 0) (pyOr i.northern_allowance_rate 0)) := by
  dsimp only [calculate_annual_bonus]
  rw [(validate_resolved_eq_none_iff i).mpr hv, ht]

theorem calculate_annual_bonus_eq_error_of_validate {i : AnnualBonusInput}
    {e : AnnualBonusCalculationError}
    (h : validate_annual_bonus_inputs i.hourly_rate i.months_in_company i.monthly_days
      (some (pyOr i.monthly_bonus_rate DEFAULT_MONTHLY_BONUS_RATE))
      i.target_annual_bonus_rate
      (some (pyOr i.kpi_coefficient DEFAULT_KPI_COEFFICIENT))
      (some (pyOr i.correction_coefficient DEFAULT_CORRECTION_COEFFICIENT))
      (some (pyOr i.regional_allowance_rate 0))
      (some (pyOr i.northern_allowance_rate 0)) = some e) :
    calculate_annual_bonus i = .error e := by
  dsimp only [calculate_annual_bonus]
  rw [h]

theorem calculate_annual_bonus_eq_error_missing {i : AnnualBonusInput}
    (hv : ValidAnnualRanges i) (ht : i.target_annual_bonus_rate = none) :
    calculate_annual_bonus i = .error .missingTargetRate := by
  dsimp only [calculate_annual_bonus]
  rw [(validate_resolved_eq_none_iff i).mpr hv, ht]

theorem validateMonthEntries_ne_missing {l : List (ℕ × ℚ)} {e : AnnualBonusCalculationError}
    (h : validateMonthEntries l = some e) :
    e ≠ AnnualBonusCalculationError.missingTargetRate := by
  induction l with
  | nil => simp [validateMonthEntries] at h
  | cons p tl ih =>
    obtain ⟨m, d⟩ := p
    unfold validateMonthEntries at h
    split_ifs at h
    · simp only [Option.some.injEq] at h; subst h; simp
    · simp only [Option.some.injEq] at h; subst h; simp
    · simp only [Option.some.injEq] at h; subst h; simp
    · exact ih h

/-- `validate_annual_bonus_inputs` never raises the missing-required-parameter
error: that check lives in `calculate_annual_bonus`, after validation. -/
theorem validate_annual_some_ne_missing (hourly_rate months_in_company : ℚ)
    (monthly_days : List (ℕ × ℚ)) (mbr t kpi corr reg nor : Option ℚ)
    (e : AnnualBonusCalculationError)
    (h : validate_annual_bonus_inputs hourly_rate months_in_company monthly_days
      mbr t kpi corr reg nor = some e) :
    e ≠ AnnualBonusCalculationError.missingTargetRate := by
  unfold validate_annual_bonus_inputs at h
  split_ifs at h with h1 h2 h3 g1 g2 g3 g4 g5 g6
  all_goals try (simp only [Option.some.injEq] at h; subst h; simp)
  all_goals simp only [Option.orElse_eq_some'] at h
  all_goals rcases h with h | ⟨hv0, h⟩
  all_goals first
  | exact validateMonthEntries_ne_missing h
  | (simp only [Option.some.injEq] at h; subst h; simp)
  | simp at h

/-- A successful `List.lookup` finds one of the list's entries. -/
theorem lookup_mem {l : List (ℕ × ℚ)} {m : ℕ} {d : ℚ} (h : l.lookup m = some d) :
    (m, d) ∈ l := by
  induction l with
  | nil => simp [List.lookup] at h
  | cons p tl ih =>
    obtain ⟨k, v⟩ := p
    by_cases hk : m = k
    · subst hk
      simp [List.lookup] at h
      subst h
      exact List.mem_cons_self _ _
    · have hb : (m == k) = false := beq_eq_false_iff_ne.mpr hk
      rw [List.lookup, hb] at h
      exact List.mem_cons_of_mem _ (ih h)

end AnnualBonusService

/-- Two strings whose first characters differ are different; the `Bool`
hypothesis lets `rfl` discharge it for lines built as `literal ++ rest`. -/
theorem ne_of_strHead_beq {s t : String} (h : (strHead s == strHead t) = false) : s ≠ t := by
  intro he
  subst he
  simp at h

namespace SalaryService

/-- A supplied optional with a nonnegative default resolves to a nonnegative
value. -/
theorem pyOr_nonneg {x : Option ℚ} {d : ℚ} (hd : 0 ≤ d) (hx : OptNonneg x) :
    0 ≤ pyOr x d := by
  cases x with
  | none => simpa [pyOr]
  | some v =>
    by_cases hv : v = 0 <;> simp_all [pyOr, OptNonneg]

/-- A supplied optional percentage with an in-range default resolves to a
nonnegative value. -/
theorem pyOr_nonneg_of_percent {x : Option ℚ} {d : ℚ} (hd : 0 ≤ d) (hx : OptPercent x) :
    0 ≤ pyOr x d := by
  cases x with
  | none => simpa [pyOr]
  | some v =>
    by_cases hv : v = 0 <;> simp_all [pyOr, OptPercent]

/-- Claim C1: for every valid regular-payroll input, `calculate_salary`
returns a result satisfying the 14-step derivation of spec section 4.1, with
omitted optionals read as their default 0. -/
theorem claim_C1_regular_derivation (i : SalaryInput) (h : ValidSalaryInput i) :
    ∃ r, calculate_salary i = .ok r ∧
      r.hours_by_timesheet = i.days_worked * 11 ∧
      r.salary_by_position = r.hours_by_timesheet * i.hourly_rate ∧
      r.holiday_payment = i.holiday_days.getD 0 * i.hourly_rate * 11 ∧
      r.idle_payment = i.idle_days.getD 0 * 11 * i.hourly_rate * (2 / 3) ∧
      r.travel_payment = i.travel_days.getD 0 * i.hourly_rate * 8 ∧
      r.shift_method_payment = (i.days_worked + i.travel_days.getD 0) * 740 ∧
      r.night_shift_payment = i.night_hours.getD 0 * i.hourly_rate * (40 / 100) ∧
      r.monthly_bonus =
        (r.salary_by_position + r.idle_payment + r.night_shift_payment) * (33 / 100) ∧
      r.regional_allowance = (r.salary_by_position + r.holiday_payment +
        r.night_shift_payment + r.monthly_bonus + r.idle_payment) *
        (i.regional_allowance_rate.getD 0 / 100) ∧
      r.northern_allowance = (r.salary_by_position + r.holiday_payment +
        r.night_shift_payment + r.monthly_bonus + r.idle_payment) *
        (i.northern_allowance_rate.getD 0 / 100) ∧
      r.total_accrued = r.salary_by_position + r.holiday_payment + r.idle_payment +
        r.travel_payment + r.shift_method_payment + r.night_shift_payment +
        r.monthly_bonus + r.regional_allowance + r.northern_allowance +
        i.additional_payments.getD 0 ∧
      r.taxable_base = r.total_accrued - r.shift_method_payment - r.travel_payment ∧
      r.tax = r.taxable_base * (13 / 100) ∧
      r.net = r.total_accrued - r.tax := by
  refine ⟨_, calculate_salary_eq_ok h, ?_⟩
  simp [salaryDerivation, pyOr_zero_default, HOURS_PER_DAY, IDLE_RATE,
    TRAVEL_HOURS_PER_DAY, SHIFT_METHOD_RATE, NIGHT_SHIFT_RATE, MONTHLY_BONUS_RATE, TAX_RATE]

/-- Witness for C1 at Scenario A. -/
theorem claim_C1_witness :
    ValidSalaryInput scenarioA ∧
    (∃ r, calculate_salary scenarioA = .ok r ∧
      r.hours_by_timesheet = scenarioA.days_worked * 11 ∧
      r.salary_by_position = r.hours_by_timesheet * scenarioA.hourly_rate ∧
      r.holiday_payment = scenarioA.holiday_days.getD 0 * scenarioA.hourly_rate * 11 ∧
      r.idle_payment = scenarioA.idle_days.getD 0 * 11 * scenarioA.hourly_rate * (2 / 3) ∧
      r.travel_payment = scenarioA.travel_days.getD 0 * scenarioA.hourly_rate * 8 ∧
      r.shift_method_payment = (scenarioA.days_worked + scenarioA.travel_days.getD 0) * 740 ∧
      r.night_shift_payment = scenarioA.night_hours.getD 0 * scenarioA.hourly_rate * (40 / 100) ∧
      r.monthly_bonus =
        (r.salary_by_position + r.idle_payment + r.night_shift_payment) * (33 / 100) ∧
      r.regional_allowance = (r.salary_by_position + r.holiday_payment +
        r.night_shift_payment + r.monthly_bonus + r.idle_payment) *
        (scenarioA.regional_allowance_rate.getD 0 / 100) ∧
      r.northern_allowance = (r.salary_by_position + r.holiday_payment +
        r.night_shift_payment + r.monthly_bonus + r.idle_payment) *
        (scenarioA.northern_allowance_rate.getD 0 / 100) ∧
      r.total_accrued = r.salary_by_position + r.holiday_payment + r.idle_payment +
        r.travel_payment + r.shift_method_payment + r.night_shift_payment +
        r.monthly_bonus + r.regional_allowance + r.northern_allowance +
        scenarioA.additional_payments.getD 0 ∧
      r.taxable_base = r.total_accrued - r.shift_method_payment - r.travel_payment ∧
      r.tax = r.taxable_base * (13 / 100) ∧
      r.net = r.total_accrued - r.tax) := by
  have hv : ValidSalaryInput scenarioA := by
    simp [ValidSalaryInput, scenarioA, OptNonneg, OptPercent]
    norm_num
  exact ⟨hv, claim_C1_regular_derivation scenarioA hv⟩

/-- Claim C4: `calculate_salary` fails exactly when a section-3 constraint is
violated, and succeeds (with a full result) exactly on valid inputs; the
`Except` shape of the embedding carries that validation precedes every
derivation step. -/
theorem claim_C4_validation_gate (i : SalaryInput) :
    ((∃ r, calculate_salary i = .ok r) ↔ ValidSalaryInput i) ∧
    ((∃ e, calculate_salary i = .error e) ↔ ¬ ValidSalaryInput i) := by
  constructor
  · constructor
    · rintro ⟨r, hr⟩
      rcases hv : validate_salary_inputs i with _ | e
      · exact (validate_salary_inputs_eq_none_iff i).mp hv
      · rw [calculate_salary_eq_error hv] at hr
        exact absurd hr (by simp)
    · intro h
      exact ⟨_, calculate_salary_eq_ok h⟩
  · constructor
    · rintro ⟨e, he⟩ h
      rw [calculate_salary_eq_ok h] at he
      exact absurd he (by simp)
    · intro h
      rcases hv : validate_salary_inputs i with _ | e
      · exact absurd ((validate_salary_inputs_eq_none_iff i).mp hv) h
      · exact ⟨e, calculate_salary_eq_error hv⟩

/-- Every component of the taxable base is nonnegative on nonnegative
(resolved) inputs, so the computed tax is nonnegative. -/
theorem salaryDerivation_tax_nonneg (hourly_rate days_worked night_hours idle_days travel_days
    holiday_days additional_payments regional_allowance_rate northern_allowance_rate : ℚ)
    (h1 : 0 ≤ hourly_rate) (h2 : 0 ≤ days_worked) (h3 : 0 ≤ night_hours) (h4 : 0 ≤ idle_days)
    (h6 : 0 ≤ holiday_days) (h7 : 0 ≤ additional_payments)
    (h8 : 0 ≤ regional_allowance_rate) (h9 : 0 ≤ northern_allowance_rate) :
    0 ≤ (salaryDerivation hourly_rate days_worked night_hours idle_days travel_days
      holiday_days additional_payments regional_allowance_rate northern_allowance_rate).tax := by
  simp only [salaryDerivation, HOURS_PER_DAY, IDLE_RATE, TRAVEL_HOURS_PER_DAY,
    SHIFT_METHOD_RATE, NIGHT_SHIFT_RATE, MONTHLY_BONUS_RATE, TAX_RATE]
  have hS : 0 ≤ days_worked * 11 * hourly_rate :=
    mul_nonneg (mul_nonneg h2 (by norm_num)) h1
  have hH : 0 ≤ holiday_days * hourly_rate * 11 :=
    mul_nonneg (mul_nonneg h6 h1) (by norm_num)
  have hI : 0 ≤ idle_days * 11 * hourly_rate * (2 / 3) :=
    mul_nonneg (mul_nonneg (mul_nonneg h4 (by norm_num)) h1) (by norm_num)
  have hN : 0 ≤ night_hours * hourly_rate * (40 / 100) :=
    mul_nonneg (mul_nonneg h3 h1) (by norm_num)
  have hB : 0 ≤ (days_worked * 11 * hourly_rate + idle_days * 11 * hourly_rate * (2 / 3) +
      night_hours * hourly_rate * (40 / 100)) * (33 / 100) :=
    mul_nonneg (by linarith) (by norm_num)
  have hBase : 0 ≤ days_worked * 11 * hourly_rate + holiday_days * hourly_rate * 11 +
      night_hours * hourly_rate * (40 / 100) +
      (days_worked * 11 * hourly_rate + idle_days * 11 * hourly_rate * (2 / 3) +
        night_hours * hourly_rate * (40 / 100)) * (33 / 100) +
      idle_days * 11 * hourly_rate * (2 / 3) := by linarith
  have hR : 0 ≤ (days_worked * 11 * hourly_rate + holiday_days * hourly_rate * 11 +
      night_hours * hourly_rate * (40 / 100) +
      (days_worked * 11 * hourly_rate + idle_days * 11 * hourly_rate * (2 / 3) +
        night_hours * hourly_rate * (40 / 100)) * (33 / 100) +
      idle_days * 11 * hourly_rate * (2 / 3)) * (regional_allowance_rate / 100) :=
    mul_nonneg hBase (by positivity)
  have hNo : 0 ≤ (days_worked * 11 * hourly_rate + holiday_days * hourly_rate * 11 +
      night_hours * hourly_rate * (40 / 100) +
      (days_worked * 11 * hourly_rate + idle_days * 11 * hourly_rate * (2 / 3) +
        night_hours * hourly_rate * (40 / 100)) * (33 / 100) +
      idle_days * 11 * hourly_rate * (2 / 3)) * (northern_allowance_rate / 100) :=
    mul_nonneg hBase (by positivity)
  nlinarith [hS, hH, hI, hN, hB, hR, hNo, h7]

end SalaryService

namespace AnnualBonusService

/-- Each month's base is nonnegative when rate, bonus rate and all recorded
day counts are nonnegative. -/
theorem monthRow_base_nonneg {hourly_rate monthly_bonus_rate : ℚ}
    {monthly_days : List (ℕ × ℚ)} (m : ℕ) (hhr : 0 ≤ hourly_rate)
    (hmbr : 0 ≤ monthly_bonus_rate) (hd : ∀ p ∈ monthly_days, 0 ≤ p.2) :
    0 ≤ (monthRow hourly_rate monthly_bonus_rate monthly_days m).base := by
  simp only [monthRow, HOURS_PER_DAY]
  have hdays : 0 ≤ (monthly_days.lookup m).getD 0 := by
    rcases hl : monthly_days.lookup m with _ | d
    · simp
    · simpa using hd (m, d) (lookup_mem hl)
  have hsal : 0 ≤ (monthly_days.lookup m).getD 0 * 11 * hourly_rate :=
    mul_nonneg (mul_nonneg hdays (by norm_num)) hhr
  nlinarith [mul_nonneg hsal (div_nonneg hmbr (by norm_num : (0:ℚ) ≤ 100))]

/-- The annual calculator's total accrual is nonnegative on in-range inputs,
hence so is its tax. -/
theorem annualDerivation_total_nonneg (hourly_rate months_in_company : ℚ)
    (monthly_days : List (ℕ × ℚ))
    (monthly_bonus_rate target kpi corr reg nor : ℚ)
    (hhr : 0 ≤ hourly_rate) (hm : 0 ≤ months_in_company)
    (hd : ∀ p ∈ monthly_days, 0 ≤ p.2) (hmbr : 0 ≤ monthly_bonus_rate)
    (ht : 0 ≤ target) (hk : 0 ≤ kpi) (hc : 0 ≤ corr) (hr : 0 ≤ reg) (hn : 0 ≤ nor) :
    0 ≤ (annualDerivation hourly_rate months_in_company monthly_days monthly_bonus_rate
      target kpi corr reg nor).total_accrued := by
  simp only [annualDerivation, MONTHS_IN_YEAR, TAX_RATE]
  have htb : 0 ≤ (((List.range 12).map
      (fun k => monthRow hourly_rate monthly_bonus_rate monthly_days (k + 1))).map
      (fun md => md.base)).sum := by
    apply List.sum_nonneg
    intro x hx
    simp only [List.mem_map] at hx
    obtain ⟨md, ⟨k, _, rfl⟩, rfl⟩ := hx
    exact monthRow_base_nonneg (k + 1) hhr hmbr hd
  have hrew : 0 ≤ (((List.range 12).map
      (fun k => monthRow hourly_rate monthly_bonus_rate monthly_days (k + 1))).map
      (fun md => md.base)).sum / months_in_company * 12 * (target / 100) * kpi * corr *
      (months_in_company / 12) := by
    have := div_nonneg htb hm
    positivity
  have hra := mul_nonneg hrew (div_nonneg hr (by norm_num : (0:ℚ) ≤ 100))
  have hna := mul_nonneg hrew (div_nonneg hn (by norm_num : (0:ℚ) ≤ 100))
  linarith

end AnnualBonusService

/-- Claim C6: for both calculators, tax is exactly 13% of the taxable portion
(the whole accrual minus the shift-method and travel payments for the regular
calculator, the whole accrual for the annual one) and net never exceeds the
pre-tax total. -/
theorem claim_C6_tax_rate_and_net_bound :
    (∀ (i : SalaryService.SalaryInput) (r : SalaryService.SalaryResult),
      SalaryService.calculate_salary i = .ok r →
      r.tax = (r.total_accrued - r.shift_method_payment - r.travel_payment) * (13 / 100) ∧
      r.net ≤ r.total_accrued) ∧
    (∀ (j : AnnualBonusService.AnnualBonusInput) (s : AnnualBonusService.AnnualBonusResult),
      AnnualBonusService.calculate_annual_bonus j = .ok s →
      s.tax = s.total_accrued * (13 / 100) ∧ s.net ≤ s.total_accrued) := by
  constructor
  · intro i r h
    rcases hval : SalaryService.validate_salary_inputs i with _ | e
    case some =>
      rw [SalaryService.calculate_salary_eq_error hval] at h
      exact absurd h (by simp)
    case none =>
      have hv := (SalaryService.validate_salary_inputs_eq_none_iff i).mp hval
      rw [SalaryService.calculate_salary_eq_ok hv] at h
      simp only [Except.ok.injEq] at h
      subst h
      obtain ⟨v1, v2, v3, v4, v5, v6, v7, v8, v9, v10⟩ := hv
      have htax : 0 ≤ (SalaryService.salaryDerivation i.hourly_rate i.days_worked
          (pyOr i.night_hours 0) (pyOr i.idle_days 0) (pyOr i.travel_days 0)
          (pyOr i.holiday_days 0) (pyOr i.additional_payments 0)
          (pyOr i.regional_allowance_rate 0) (pyOr i.northern_allowance_rate 0)).tax := by
        exact SalaryService.salaryDerivation_tax_nonneg _ _ _ _ _ _ _ _ _ v1.le v2
          (SalaryService.pyOr_nonneg le_rfl v4) (SalaryService.pyOr_nonneg le_rfl v5)
          (SalaryService.pyOr_nonneg le_rfl v7) (SalaryService.pyOr_nonneg le_rfl v8)
          (SalaryService.pyOr_nonneg_of_percent le_rfl v9)
          (SalaryService.pyOr_nonneg_of_percent le_rfl v10)
      constructor
      · simp [SalaryService.salaryDerivation, SalaryService.TAX_RATE]
      · have hnet : (SalaryService.salaryDerivation i.hourly_rate i.days_worked
            (pyOr i.night_hours 0) (pyOr i.idle_days 0) (pyOr i.travel_days 0)
            (pyOr i.holiday_days 0) (pyOr i.additional_payments 0)
            (pyOr i.regional_allowance_rate 0) (pyOr i.northern_allowance_rate 0)).net =
            (SalaryService.salaryDerivation i.hourly_rate i.days_worked
            (pyOr i.night_hours 0) (pyOr i.idle_days 0) (pyOr i.travel_days 0)
            (pyOr i.holiday_days 0) (pyOr i.additional_payments 0)
            (pyOr i.regional_allowance_rate 0) (pyOr i.northern_allowance_rate 0)).total_accrued -
            (SalaryService.salaryDerivation i.hourly_rate i.days_worked
            (pyOr i.night_hours 0) (pyOr i.idle_days 0) (pyOr i.travel_days 0)
            (pyOr i.holiday_days 0) (pyOr i.additional_payments 0)
            (pyOr i.regional_allowance_rate 0) (pyOr i.northern_allowance_rate 0)).tax := by
          simp [SalaryService.salaryDerivation]
        linarith [htax, hnet.le, hnet.ge]
  · intro j s h
    rcases hval : AnnualBonusService.validate_annual_bonus_inputs j.hourly_rate
        j.months_in_company j.monthly_days
        (some (pyOr j.monthly_bonus_rate AnnualBonusService.DEFAULT_MONTHLY_BONUS_RATE))
        j.target_annual_bonus_rate
        (some (pyOr j.kpi_coefficient AnnualBonusService.DEFAULT_KPI_COEFFICIENT))
        (some (pyOr j.correction_coefficient AnnualBonusService.DEFAULT_CORRECTION_COEFFICIENT))
        (some (pyOr j.regional_allowance_rate 0))
        (some (pyOr j.northern_allowance_rate 0)) with _ | e
    case some =>
      rw [AnnualBonusService.calculate_annual_bonus_eq_error_of_validate hval] at h
      exact absurd h (by simp)
    case none =>
      have hv := (AnnualBonusService.validate_resolved_eq_none_iff j).mp hval
      rcases ht : j.target_annual_bonus_rate with _ | t
      case none =>
        rw [AnnualBonusService.calculate_annual_bonus_eq_error_missing hv ht] at h
        exact absurd h (by simp)
      case some =>
        rw [AnnualBonusService.calculate_annual_bonus_eq_ok hv ht] at h
        simp only [Except.ok.injEq] at h
        subst h
        obtain ⟨v1, v2, v3, v4, v5, v6, v7, v8, v9, v10, v11⟩ := hv
        have ht' : OptPercent (some t) := ht ▸ v7
        have htot : 0 ≤ (AnnualBonusService.annualDerivation j.hourly_rate j.months_in_company
            j.monthly_days (pyOr j.monthly_bonus_rate AnnualBonusService.DEFAULT_MONTHLY_BONUS_RATE)
            t (pyOr j.kpi_coefficient AnnualBonusService.DEFAULT_KPI_COEFFICIENT)
            (pyOr j.correction_coefficient AnnualBonusService.DEFAULT_CORRECTION_COEFFICIENT)
            (pyOr j.regional_allowance_rate 0) (pyOr j.northern_allowance_rate 0)).total_accrued := by
          refine AnnualBonusService.annualDerivation_total_nonneg _ _ _ _ _ _ _ _ _
            v1.le (by linarith) (fun p hp => (v5 p hp).2.2.1) ?_ ht'.1 ?_ ?_ ?_ ?_
          · exact SalaryService.pyOr_nonneg_of_percent
              (by norm_num [AnnualBonusService.DEFAULT_MONTHLY_BONUS_RATE]) v6
          · exact SalaryService.pyOr_nonneg
              (by norm_num [AnnualBonusService.DEFAULT_KPI_COEFFICIENT]) v8
          · exact SalaryService.pyOr_nonneg
              (by norm_num [AnnualBonusService.DEFAULT_CORRECTION_COEFFICIENT]) v9
          · exact SalaryService.pyOr_nonneg_of_percent le_rfl v10
          · exact SalaryService.pyOr_nonneg_of_percent le_rfl v11
        constructor
        · simp [AnnualBonusService.annualDerivation, AnnualBonusService.TAX_RATE]
        · have hx : 0 ≤ (AnnualBonusService.annualDerivation j.hourly_rate j.months_in_company
              j.monthly_days (pyOr j.monthly_bonus_rate AnnualBonusService.DEFAULT_MONTHLY_BONUS_RATE)
              t (pyOr j.kpi_coefficient AnnualBonusService.DEFAULT_KPI_COEFFICIENT)
              (pyOr j.correction_coefficient AnnualBonusService.DEFAULT_CORRECTION_COEFFICIENT)
              (pyOr j.regional_allowance_rate 0) (pyOr j.northern_allowance_rate 0)).tax := by
            have heq : (AnnualBonusService.annualDerivation j.hourly_rate j.months_in_company
              j.monthly_days (pyOr j.monthly_bonus_rate AnnualBonusService.DEFAULT_MONTHLY_BONUS_RATE)
              t (pyOr j.kpi_coefficient AnnualBonusService.DEFAULT_KPI_COEFFICIENT)
              (pyOr j.correction_coefficient AnnualBonusService.DEFAULT_CORRECTION_COEFFICIENT)
              (pyOr j.regional_allowance_rate 0) (pyOr j.northern_allowance_rate 0)).tax =
              (AnnualBonusService.annualDerivation j.hourly_rate j.months_in_company
              j.monthly_days (pyOr j.monthly_bonus_rate AnnualBonusService.DEFAULT_MONTHLY_BONUS_RATE)
              t (pyOr j.kpi_coefficient AnnualBonusService.DEFAULT_KPI_COEFFICIENT)
              (pyOr j.correction_coefficient AnnualBonusService.DEFAULT_CORRECTION_COEFFICIENT)
              (pyOr j.regional_allowance_rate 0) (pyOr j.northern_allowance_rate 0)).total_accrued *
              (13 / 100) := by
              simp [AnnualBonusService.annualDerivation, AnnualBonusService.TAX_RATE]
            rw [heq]
            positivity
          have hnet : (AnnualBonusService.annualDerivation j.hourly_rate j.months_in_company
              j.monthly_days (pyOr j.monthly_bonus_rate AnnualBonusService.DEFAULT_MONTHLY_BONUS_RATE)
              t (pyOr j.kpi_coefficient AnnualBonusService.DEFAULT_KPI_COEFFICIENT)
              (pyOr j.correction_coefficient AnnualBonusService.DEFAULT_CORRECTION_COEFFICIENT)
              (pyOr j.regional_allowance_rate 0) (pyOr j.northern_allowance_rate 0)).net =
              (AnnualBonusService.annualDerivation j.hourly_rate j.months_in_company
              j.monthly_days (pyOr j.monthly_bonus_rate AnnualBonusService.DEFAULT_MONTHLY_BONUS_RATE)
              t (pyOr j.kpi_coefficient AnnualBonusService.DEFAULT_KPI_COEFFICIENT)
              (pyOr j.correction_coefficient AnnualBonusService.DEFAULT_CORRECTION_COEFFICIENT)
              (pyOr j.regional_allowance_rate 0) (pyOr j.northern_allowance_rate 0)).total_accrued -
              (AnnualBonusService.annualDerivation j.hourly_rate j.months_in_company
              j.monthly_days (pyOr j.monthly_bonus_rate AnnualBonusService.DEFAULT_MONTHLY_BONUS_RATE)
              t (pyOr j.kpi_coefficient AnnualBonusService.DEFAULT_KPI_COEFFICIENT)
              (pyOr j.correction_coefficient AnnualBonusService.DEFAULT_CORRECTION_COEFFICIENT)
              (pyOr j.regional_allowance_rate 0) (pyOr j.northern_allowance_rate 0)).tax := by
            simp [AnnualBonusService.annualDerivation]
          linarith [hx, hnet.le, hnet.ge]

/-- Witness for C6: both conjuncts hold for a concrete successful run of the
regular calculator on Scenario A. -/
theorem claim_C6_witness :
    ∃ r, SalaryService.calculate_salary SalaryService.scenarioA = .ok r ∧
      r.tax = (r.total_accrued - r.shift_method_payment - r.travel_payment) * (13 / 100) ∧
      r.net ≤ r.total_accrued := by
  have hv : SalaryService.ValidSalaryInput SalaryService.scenarioA := by
    simp [SalaryService.ValidSalaryInput, SalaryService.scenarioA, OptNonneg, OptPercent]
    norm_num
  exact ⟨_, SalaryService.calculate_salary_eq_ok hv,
    claim_C6_tax_rate_and_net_bound.1 _ _ (SalaryService.calculate_salary_eq_ok hv)⟩

namespace SalaryService

/-- Claim C7: adding `d` to `additional_payments` (holding everything else
fixed) raises `net` by exactly `d × (1 − 0.13)`, and `net` decomposes as
`taxable_base × (1 − 0.13)` plus the two tax-exempt components, so one extra
unit of shift-method or travel pay raises `net` by exactly one unit. -/
theorem claim_C7_additional_linearity (i : SalaryInput) (a₂ d : ℚ)
    (h : ValidSalaryInput i) (hd : 0 < d)
    (ha : a₂ = pyOr i.additional_payments 0 + d) :
    ∃ r₁ r₂, calculate_salary i = .ok r₁ ∧
      calculate_salary { i with additional_payments := some a₂ } = .ok r₂ ∧
      r₂.net - r₁.net = d * (1 - 13 / 100) ∧
      r₁.net = r₁.taxable_base * (1 - 13 / 100) + r₁.shift_method_payment +
        r₁.travel_payment := by
  obtain ⟨v1, v2, v3, v4, v5, v6, v7, v8, v9, v10⟩ := h
  have ha0 : 0 ≤ pyOr i.additional_payments 0 := pyOr_nonneg le_rfl v8
  have ha2 : 0 < a₂ := by rw [ha]; linarith
  have h2 : ValidSalaryInput { i with additional_payments := some a₂ } :=
    ⟨v1, v2, v3, v4, v5, v6, v7, ha2.le, v9, v10⟩
  refine ⟨_, _, calculate_salary_eq_ok ⟨v1, v2, v3, v4, v5, v6, v7, v8, v9, v10⟩,
    calculate_salary_eq_ok h2, ?_, ?_⟩
  · have hp2 : pyOr (some a₂) 0 = a₂ := by simp [pyOr, ne_of_gt ha2]
    simp only [salaryDerivation, hp2, HOURS_PER_DAY, IDLE_RATE, TRAVEL_HOURS_PER_DAY,
      SHIFT_METHOD_RATE, NIGHT_SHIFT_RATE, MONTHLY_BONUS_RATE, TAX_RATE]
    rw [ha]
    ring
  · simp only [salaryDerivation, HOURS_PER_DAY, IDLE_RATE, TRAVEL_HOURS_PER_DAY,
      SHIFT_METHOD_RATE, NIGHT_SHIFT_RATE, MONTHLY_BONUS_RATE, TAX_RATE]
    ring

/-- Witness for C7 at Scenario A with `d = 1`. -/
theorem claim_C7_witness :
    ∃ r₁ r₂, calculate_salary scenarioA = .ok r₁ ∧
      calculate_salary { scenarioA with additional_payments := some 1 } = .ok r₂ ∧
      r₂.net - r₁.net = 1 * (1 - 13 / 100) ∧
      r₁.net = r₁.taxable_base * (1 - 13 / 100) + r₁.shift_method_payment +
        r₁.travel_payment := by
  have hv : ValidSalaryInput scenarioA := by
    simp [ValidSalaryInput, scenarioA, OptNonneg, OptPercent]
    norm_num
  exact claim_C7_additional_linearity scenarioA 1 1 hv (by norm_num)
    (by simp [scenarioA, pyOr])

end SalaryService

namespace AnnualBonusService

theorem scenarioC_valid : ValidAnnualRanges scenarioC := by
  refine ⟨by norm_num [scenarioC], by norm_num [scenarioC], by norm_num [scenarioC],
    by norm_num [scenarioC], ?_, by simp [scenarioC, OptPercent],
    by norm_num [scenarioC, OptPercent], by norm_num [scenarioC, OptNonneg],
    by norm_num [scenarioC, OptNonneg], by simp [scenarioC, OptPercent],
    by simp [scenarioC, OptPercent]⟩
  intro p hp
  simp [scenarioC] at hp
  rcases hp with rfl | rfl | rfl | rfl | rfl | rfl | rfl | rfl | rfl | rfl | rfl | rfl <;>
    norm_num

/-- Claim C2 (amended): for every in-range annual-bonus input with
`target_annual_bonus_rate` present, `calculate_annual_bonus` succeeds and its
result satisfies the 9-step derivation of spec section 4.2, where
`monthly_bonus_rate`, `kpi_coefficient` and `correction_coefficient` stand
for the effective values the `or`-defaulting produces (the supplied value
when it is nonzero, the default 33 / 1.0 / 1.0 otherwise); the averaging
divides by `months_in_company`, not by 12. -/
theorem claim_C2_annual_derivation (i : AnnualBonusInput) (t : ℚ)
    (hv : ValidAnnualRanges i) (ht : i.target_annual_bonus_rate = some t) :
    ∃ r, calculate_annual_bonus i = .ok r ∧
      r.monthly_data.length = 12 ∧
      (∀ m, 1 ≤ m → m ≤ 12 →
        ∃ md, r.monthly_data.get? (m - 1) = some md ∧
          md.days = (i.monthly_days.lookup m).getD 0 ∧
          md.hours = md.days * 11 ∧
          md.salary = md.hours * i.hourly_rate ∧
          md.bonus = md.salary * (pyOr i.monthly_bonus_rate 33 / 100) ∧
          md.base = md.salary + md.bonus) ∧
      r.average_monthly_base =
        (r.monthly_data.map (fun md => md.base)).sum / i.months_in_company ∧
      r.annual_base = r.average_monthly_base * 12 ∧
      r.annual_reward_without_allowances = r.annual_base * (t / 100) *
        pyOr i.kpi_coefficient 1 * pyOr i.correction_coefficient 1 *
        (i.months_in_company / 12) ∧
      r.regional_allowance =
        r.annual_reward_without_allowances * (pyOr i.regional_allowance_rate 0 / 100) ∧
      r.northern_allowance =
        r.annual_reward_without_allowances * (pyOr i.northern_allowance_rate 0 / 100) ∧
      r.total_accrued = r.annual_reward_without_allowances + r.regional_allowance +
        r.northern_allowance ∧
      r.tax = r.total_accrued * (13 / 100) ∧
      r.net = r.total_accrued - r.tax := by
  refine ⟨_, calculate_annual_bonus_eq_ok hv ht, ?_, ?_, rfl, rfl, rfl, rfl, rfl, rfl, rfl, rfl⟩
  · simp [annualDerivation]
  · intro m h1 h12
    have hm : m - 1 < 12 := by omega
    refine ⟨monthRow i.hourly_rate (pyOr i.monthly_bonus_rate DEFAULT_MONTHLY_BONUS_RATE)
      i.monthly_days m, ?_, rfl, rfl, rfl, rfl, rfl⟩
    simp only [annualDerivation]
    rw [List.get?_eq_getElem?, List.getElem?_map, List.getElem?_range hm]
    simp only [Option.map_some']
    rw [Nat.sub_add_cancel h1]

/-- Witness for (amended) C2 at Scenario C. -/
theorem claim_C2_witness :
    ∃ r, calculate_annual_bonus scenarioC = .ok r ∧
      r.monthly_data.length = 12 ∧
      (∀ m, 1 ≤ m → m ≤ 12 →
        ∃ md, r.monthly_data.get? (m - 1) = some md ∧
          md.days = (scenarioC.monthly_days.lookup m).getD 0 ∧
          md.hours = md.days * 11 ∧
          md.salary = md.hours * scenarioC.hourly_rate ∧
          md.bonus = md.salary * (pyOr scenarioC.monthly_bonus_rate 33 / 100) ∧
          md.base = md.salary + md.bonus) ∧
      r.average_monthly_base =
        (r.monthly_data.map (fun md => md.base)).sum / scenarioC.months_in_company ∧
      r.annual_base = r.average_monthly_base * 12 ∧
      r.annual_reward_without_allowances = r.annual_base * ((20:ℚ) / 100) *
        pyOr scenarioC.kpi_coefficient 1 * pyOr scenarioC.correction_coefficient 1 *
        (scenarioC.months_in_company / 12) ∧
      r.regional_allowance =
        r.annual_reward_without_allowances * (pyOr scenarioC.regional_allowance_rate 0 / 100) ∧
      r.northern_allowance =
        r.annual_reward_without_allowances * (pyOr scenarioC.northern_allowance_rate 0 / 100) ∧
      r.total_accrued = r.annual_reward_without_allowances + r.regional_allowance +
        r.northern_allowance ∧
      r.tax = r.total_accrued * (13 / 100) ∧
      r.net = r.total_accrued - r.tax :=
  claim_C2_annual_derivation scenarioC 20 scenarioC_valid rfl

theorem c2CexInput_valid : ValidAnnualRanges c2CexInput := by
  obtain ⟨v1, v2, v3, v4, v5, v6, v7, v8, v9, v10, v11⟩ := scenarioC_valid
  exact ⟨v1, v2, v3, v4, v5, by norm_num [c2CexInput, scenarioC, OptPercent],
    v7, v8, v9, v10, v11⟩

/-- Counterexample to C2 as frozen: with `monthly_bonus_rate` supplied as 0
(in range, since the spec allows 0-100), step 1 of the claimed derivation
says `bonus[1] = salary[1] × 0/100 = 0`, but the calculator replaces the
supplied 0 by the default 33 and returns `bonus[1] = 72600`. -/
theorem claim_C2_counterexample :
    ∃ r, calculate_annual_bonus c2CexInput = .ok r ∧
      r.monthly_data.head?.map (fun md => (md.salary, md.bonus)) =
        some ((220000 : ℚ), (72600 : ℚ)) ∧
    (72600 : ℚ) ≠ 220000 * (0 / 100) := by
  refine ⟨_, calculate_annual_bonus_eq_ok c2CexInput_valid rfl, ?_, by norm_num⟩
  simp only [annualDerivation, List.range_succ_eq_map, List.map_cons, List.head?_cons,
    Option.map_some']
  simp [monthRow, c2CexInput, scenarioC, pyOr, DEFAULT_MONTHLY_BONUS_RATE, HOURS_PER_DAY,
    List.lookup]
  norm_num

theorem c3FailingInput_valid : ValidAnnualRanges c3FailingInput := by
  obtain ⟨v1, v2, v3, v4, v5, v6, v7, v8, v9, v10, v11⟩ := scenarioC_valid
  exact ⟨v1, v2, v3, v4, v5, v6, v7, by norm_num [c3FailingInput, scenarioC, OptNonneg],
    v9, v10, v11⟩

/-- Claim C3, evaluation at the failing input: supplying `kpi_coefficient = 0`
(legal per validation, and per the spec to be used unchanged, which would
force a zero annual reward) makes the calculator substitute the default 1.0
via Python's `or`-defaulting: the result echoes `kpi_coefficient = 1` and the
reward is 702240, not 0. -/
theorem claim_C3_supplied_zero_replaced :
    ∃ r, calculate_annual_bonus c3FailingInput = .ok r ∧
      r.kpi_coefficient = 1 ∧
      r.annual_reward_without_allowances = 702240 ∧
      (702240 : ℚ) ≠ 0 := by
  refine ⟨_, calculate_annual_bonus_eq_ok c3FailingInput_valid rfl, ?_, ?_, by norm_num⟩
  · simp [annualDerivation, c3FailingInput, scenarioC, pyOr, DEFAULT_KPI_COEFFICIENT]
  · simp only [annualDerivation, List.range_succ, List.map_append, List.map_cons,
      List.map_nil, List.sum_append, List.sum_cons, List.sum_nil]
    simp [monthRow, c3FailingInput, scenarioC, pyOr, DEFAULT_KPI_COEFFICIENT,
      DEFAULT_MONTHLY_BONUS_RATE, DEFAULT_CORRECTION_COEFFICIENT, HOURS_PER_DAY,
      MONTHS_IN_YEAR, List.lookup]
    norm_num

theorem c5CexInput_validate :
    validate_annual_bonus_inputs c5CexInput.hourly_rate c5CexInput.months_in_company
      c5CexInput.monthly_days
      (some (pyOr c5CexInput.monthly_bonus_rate DEFAULT_MONTHLY_BONUS_RATE))
      c5CexInput.target_annual_bonus_rate
      (some (pyOr c5CexInput.kpi_coefficient DEFAULT_KPI_COEFFICIENT))
      (some (pyOr c5CexInput.correction_coefficient DEFAULT_CORRECTION_COEFFICIENT))
      (some (pyOr c5CexInput.regional_allowance_rate 0))
      (some (pyOr c5CexInput.northern_allowance_rate 0)) =
      some .hourlyRateNotPositive := by
  rw [validate_annual_bonus_inputs, if_pos]
  norm_num [c5CexInput, scenarioC]

/-- Counterexample to C5 as frozen: with the target absent and the hourly
rate also invalid, the raised error is the hourly-rate range error, whose
message does not name the missing required parameter. -/
theorem claim_C5_counterexample :
    calculate_annual_bonus c5CexInput = .error .hourlyRateNotPositive ∧
    AnnualBonusCalculationError.hourlyRateNotPositive.message ≠
      AnnualBonusCalculationError.missingTargetRate.message := by
  exact ⟨calculate_annual_bonus_eq_error_of_validate c5CexInput_validate, by decide⟩

/-- Claim C5 (amended): when `target_annual_bonus_rate` is absent the
calculator never produces a result and never substitutes a default; when
every other section-3 constraint holds, the error is precisely the
missing-required-parameter error with its specific message (when another
constraint is violated, that range error is raised instead — see C9). -/
theorem claim_C5_missing_target (i : AnnualBonusInput)
    (h : i.target_annual_bonus_rate = none) :
    (∀ r, calculate_annual_bonus i ≠ .ok r) ∧
    (ValidAnnualRanges i →
      calculate_annual_bonus i = .error .missingTargetRate ∧
      AnnualBonusCalculationError.missingTargetRate.message =
        "Целевой % годового вознаграждения по должности (E104) обязателен для расчёта") := by
  constructor
  · intro r hc
    rcases hval : validate_annual_bonus_inputs i.hourly_rate i.months_in_company i.monthly_days
        (some (pyOr i.monthly_bonus_rate DEFAULT_MONTHLY_BONUS_RATE))
        i.target_annual_bonus_rate
        (some (pyOr i.kpi_coefficient DEFAULT_KPI_COEFFICIENT))
        (some (pyOr i.correction_coefficient DEFAULT_CORRECTION_COEFFICIENT))
        (some (pyOr i.regional_allowance_rate 0))
        (some (pyOr i.northern_allowance_rate 0)) with _ | e
    · have hv := (validate_resolved_eq_none_iff i).mp hval
      rw [calculate_annual_bonus_eq_error_missing hv h] at hc
      exact absurd hc (by simp)
    · rw [calculate_annual_bonus_eq_error_of_validate hval] at hc
      exact absurd hc (by simp)
  · intro hv
    exact ⟨calculate_annual_bonus_eq_error_missing hv h, rfl⟩

theorem c5WitnessInput_valid : ValidAnnualRanges c5WitnessInput := by
  obtain ⟨v1, v2, v3, v4, v5, v6, v7, v8, v9, v10, v11⟩ := scenarioC_valid
  exact ⟨v1, v2, v3, v4, v5, v6, by simp [c5WitnessInput, scenarioC, OptPercent],
    v8, v9, v10, v11⟩

/-- Witness for (amended) C5 at a concrete valid-but-targetless input. -/
theorem claim_C5_witness :
    (∀ r, calculate_annual_bonus c5WitnessInput ≠ .ok r) ∧
    (ValidAnnualRanges c5WitnessInput →
      calculate_annual_bonus c5WitnessInput = .error .missingTargetRate ∧
      AnnualBonusCalculationError.missingTargetRate.message =
        "Целевой % годового вознаграждения по должности (E104) обязателен для расчёта") :=
  claim_C5_missing_target c5WitnessInput rfl

/-- Claim C9: whenever the (defaults-applied) range validation rejects the
input, `calculate_annual_bonus` raises exactly that range error — never the
missing-required-parameter error — even when `target_annual_bonus_rate` is
also absent: the missing-parameter check runs only after validation passes. -/
theorem claim_C9_range_error_precedes_missing (i : AnnualBonusInput)
    (e : AnnualBonusCalculationError)
    (hval : validate_annual_bonus_inputs i.hourly_rate i.months_in_company i.monthly_days
      (some (pyOr i.monthly_bonus_rate DEFAULT_MONTHLY_BONUS_RATE))
      i.target_annual_bonus_rate
      (some (pyOr i.kpi_coefficient DEFAULT_KPI_COEFFICIENT))
      (some (pyOr i.correction_coefficient DEFAULT_CORRECTION_COEFFICIENT))
      (some (pyOr i.regional_allowance_rate 0))
      (some (pyOr i.northern_allowance_rate 0)) = some e) :
    calculate_annual_bonus i = .error e ∧ e ≠ .missingTargetRate :=
  ⟨calculate_annual_bonus_eq_error_of_validate hval,
    validate_annual_some_ne_missing _ _ _ _ _ _ _ _ _ _ hval⟩

/-- Witness for C9: an input that both omits the target and has an invalid
hourly rate raises the hourly-rate error, not the missing-parameter error. -/
theorem claim_C9_witness :
    calculate_annual_bonus c5CexInput = .error .hourlyRateNotPositive ∧
    AnnualBonusCalculationError.hourlyRateNotPositive ≠
      AnnualBonusCalculationError.missingTargetRate :=
  claim_C9_range_error_precedes_missing c5CexInput .hourlyRateNotPositive c5CexInput_validate

end AnnualBonusService

namespace SalaryService

set_option maxHeartbeats 4000000 in
/-- Claim C10: `format_salary_report` always renders the hourly-rate,
days-worked, hours-by-timesheet, salary-by-position, shift-method,
total-accrued, tax and net lines — even when their values are 0 — while the
idle (two lines), holiday, travel, night-shift, monthly-bonus, regional and
northern allowance and additional-payments lines appear exactly when their
gating value is positive, the night-shift line being gated on `night_hours`
rather than on `night_shift_payment`. -/
theorem claim_C10_salary_report_lines (c : SalaryResult) :
    ("📊 Часовая ставка: " ++ fmtFixed c.hourly_rate 2 ++ " ₽/час\n") ∈ salaryReportLines c ∧
    ("📅 Отработано дней: " ++ fmtFixed c.days_worked 0 ++ "\n") ∈ salaryReportLines c ∧
    ("⏰ Часов по табелю: " ++ fmtFixed c.hours_by_timesheet 1 ++ "\n\n") ∈
      salaryReportLines c ∧
    ("💵 Оплата по окладу: " ++ fmtFixed c.salary_by_position 2 ++ " ₽\n") ∈
      salaryReportLines c ∧
    ("🏕️ Доплата за вахтовый метод: " ++ fmtFixed c.shift_method_payment 2 ++ " ₽\n") ∈
      salaryReportLines c ∧
    ("📊 Всего начислено: " ++ fmtFixed c.total_accrued 2 ++ " ₽\n") ∈ salaryReportLines c ∧
    ("📉 Налог (13%): " ++ fmtFixed c.tax 2 ++ " ₽\n") ∈ salaryReportLines c ∧
    ("✅ ЗП к выплате: " ++ fmtFixed c.net 2 ++ " ₽") ∈ salaryReportLines c ∧
    (("⏸️ Количество простоя: " ++ fmtFixed c.idle_days 0 ++ " дн.\n") ∈
      salaryReportLines c ↔ 0 < c.idle_days) ∧
    (("⏸️ Оплата простоя (" ++ fmtFixed c.idle_days 0 ++ " дн.): " ++
      fmtFixed c.idle_payment 2 ++ " ₽\n") ∈ salaryReportLines c ↔ 0 < c.idle_days) ∧
    (("🎉 Доплата за праздники (" ++ fmtFixed c.holiday_days 0 ++ " дн.): " ++
      fmtFixed c.holiday_payment 2 ++ " ₽\n") ∈ salaryReportLines c ↔ 0 < c.holiday_days) ∧
    (("🚗 Доплата за дни в пути (" ++ fmtFixed c.travel_days 0 ++ " дн.): " ++
      fmtFixed c.travel_payment 2 ++ " ₽\n") ∈ salaryReportLines c ↔ 0 < c.travel_days) ∧
    (("🌙 Доплата за ночные (" ++ fmtFixed c.night_hours 1 ++ " ч): " ++
      fmtFixed c.night_shift_payment 2 ++ " ₽\n") ∈ salaryReportLines c ↔
      0 < c.night_hours) ∧
    (("🎁 Премия месячная (33%): " ++ fmtFixed c.monthly_bonus 2 ++ " ₽\n") ∈
      salaryReportLines c ↔ 0 < c.monthly_bonus) ∧
    (("📍 Региональная надбавка (" ++ fmtFixed c.regional_allowance_rate 1 ++ "%): " ++
      fmtFixed c.regional_allowance 2 ++ " ₽\n") ∈ salaryReportLines c ↔
      0 < c.regional_allowance_rate) ∧
    (("❄️ Северная надбавка (" ++ fmtFixed c.northern_allowance_rate 1 ++ "%): " ++
      fmtFixed c.northern_allowance 2 ++ " ₽\n") ∈ salaryReportLines c ↔
      0 < c.northern_allowance_rate) ∧
    (("➕ Прочие доплаты: " ++ fmtFixed c.additional_payments 2 ++ " ₽\n") ∈
      salaryReportLines c ↔ 0 < c.additional_payments) := by
  refine ⟨?_, ?_, ?_, ?_, ?_, ?_, ?_, ?_, ?_, ?_, ?_, ?_, ?_, ?_, ?_, ?_, ?_⟩
  · simp [salaryReportLines, mem_ite_singleton]
  · simp [salaryReportLines, mem_ite_singleton]
  · simp [salaryReportLines, mem_ite_singleton]
  · simp [salaryReportLines, mem_ite_singleton]
  · simp [salaryReportLines, mem_ite_singleton]
  · simp [salaryReportLines, mem_ite_singleton]
  · simp [salaryReportLines, mem_ite_singleton]
  · simp [salaryReportLines, mem_ite_singleton]
  all_goals
    refine ⟨fun hmem => ?_, fun hg => by simp [salaryReportLines, mem_ite_singleton, hg]⟩
  all_goals simp only [salaryReportLines, List.mem_append, List.mem_cons, List.mem_singleton,
    mem_ite_singleton, List.not_mem_nil, or_false, false_or, or_assoc] at hmem
  all_goals rcases hmem with h|h|h|h|h|h|h|h|h|h|h|h|h|h|h|h|h|h|h|h
  all_goals first
  | exact h.1
  | exact absurd h (ne_of_strHead_beq rfl)
  | exact absurd h.2 (ne_of_strHead_beq rfl)

/-- A successful `calculate_salary` run comes from a valid input and returns
exactly the derivation on the defaulted values. -/
theorem calculate_salary_ok_inv {i : SalaryInput} {r : SalaryResult}
    (h : calculate_salary i = .ok r) :
    ValidSalaryInput i ∧ r = salaryDerivation i.hourly_rate i.days_worked
      (pyOr i.night_hours 0) (pyOr i.idle_days 0) (pyOr i.travel_days 0)
      (pyOr i.holiday_days 0) (pyOr i.additional_payments 0)
      (pyOr i.regional_allowance_rate 0) (pyOr i.northern_allowance_rate 0) := by
  rcases hval : validate_salary_inputs i with _ | e
  · have hv := (validate_salary_inputs_eq_none_iff i).mp hval
    rw [calculate_salary_eq_ok hv] at h
    simp only [Except.ok.injEq] at h
    exact ⟨hv, h.symm⟩
  · rw [calculate_salary_eq_error hval] at h
    exact absurd h (by simp)

theorem c8CexInput_valid : ValidSalaryInput c8CexInput := by
  refine ⟨by norm_num [c8CexInput], by norm_num [c8CexInput], by norm_num [c8CexInput],
    by simp [c8CexInput, OptNonneg], by simp [c8CexInput, OptNonneg],
    by simp [c8CexInput, OptNonneg], by simp [c8CexInput, OptNonneg],
    by simp [c8CexInput, OptNonneg], by norm_num [c8CexInput, OptPercent],
    by simp [c8CexInput, OptPercent]⟩

set_option maxHeartbeats 1000000 in
/-- Counterexample to C8 as frozen: with zero days worked and a 50% regional
rate the computed regional allowance is exactly 0, yet the regional line is
rendered (the formatter gates it on the rate, not on the computed value). -/
theorem claim_C8_counterexample :
    ∃ r, calculate_salary c8CexInput = .ok r ∧
      r.regional_allowance = 0 ∧
      ("📍 Региональная надбавка (" ++ fmtFixed r.regional_allowance_rate 1 ++ "%): " ++
        fmtFixed r.regional_allowance 2 ++ " ₽\n") ∈ salaryReportLines r := by
  refine ⟨_, calculate_salary_eq_ok c8CexInput_valid, ?_, ?_⟩
  · simp [salaryDerivation, c8CexInput, pyOr, HOURS_PER_DAY, IDLE_RATE,
      TRAVEL_HOURS_PER_DAY, SHIFT_METHOD_RATE, NIGHT_SHIFT_RATE, MONTHLY_BONUS_RATE]
  · have hrate : (0:ℚ) < (salaryDerivation c8CexInput.hourly_rate c8CexInput.days_worked
        (pyOr c8CexInput.night_hours 0) (pyOr c8CexInput.idle_days 0)
        (pyOr c8CexInput.travel_days 0) (pyOr c8CexInput.holiday_days 0)
        (pyOr c8CexInput.additional_payments 0) (pyOr c8CexInput.regional_allowance_rate 0)
        (pyOr c8CexInput.northern_allowance_rate 0)).regional_allowance_rate := by
      norm_num [salaryDerivation, c8CexInput, pyOr]
    simp [salaryReportLines, mem_ite_singleton, hrate]

end SalaryService

namespace AnnualBonusService

/-- A successful `calculate_annual_bonus` run comes from in-range inputs with
the target present, and returns exactly the derivation on the defaulted
values. -/
theorem calculate_annual_bonus_ok_inv {i : AnnualBonusInput} {s : AnnualBonusResult}
    (h : calculate_annual_bonus i = .ok s) :
    ValidAnnualRanges i ∧ ∃ t, i.target_annual_bonus_rate = some t ∧
      s = annualDerivation i.hourly_rate i.months_in_company i.monthly_days
        (pyOr i.monthly_bonus_rate DEFAULT_MONTHLY_BONUS_RATE) t
        (pyOr i.kpi_coefficient DEFAULT_KPI_COEFFICIENT)
        (pyOr i.correction_coefficient DEFAULT_CORRECTION_COEFFICIENT)
        (pyOr i.regional_allowance_rate 0) (pyOr i.northern_allowance_rate 0) := by
  rcases hval : validate_annual_bonus_inputs i.hourly_rate i.months_in_company i.monthly_days
      (some (pyOr i.monthly_bonus_rate DEFAULT_MONTHLY_BONUS_RATE))
      i.target_annual_bonus_rate
      (some (pyOr i.kpi_coefficient DEFAULT_KPI_COEFFICIENT))
      (some (pyOr i.correction_coefficient DEFAULT_CORRECTION_COEFFICIENT))
      (some (pyOr i.regional_allowance_rate 0))
      (some (pyOr i.northern_allowance_rate 0)) with _ | e
  · have hv := (validate_resolved_eq_none_iff i).mp hval
    rcases ht : i.target_annual_bonus_rate with _ | t
    · rw [calculate_annual_bonus_eq_error_missing hv ht] at h
      exact absurd h (by simp)
    · rw [calculate_annual_bonus_eq_ok hv ht] at h
      simp only [Except.ok.injEq] at h
      exact ⟨hv, t, rfl, h.symm⟩
  · rw [calculate_annual_bonus_eq_error_of_validate hval] at h
    exact absurd h (by simp)

end AnnualBonusService

set_option maxHeartbeats 4000000 in
/-- Claim C8 (amended): both report formatters are deterministic pure
functions of the result record, and a line for an optional component is
omitted when its gating quantity is zero — the gate being the driving
day/hour count or the allowance *rate*, not always the computed value. For
calculator-produced results the night-shift line is absent exactly when
`night_shift_payment` is 0 (as the claim's example states), and an allowance
line is absent whenever its rate is 0; by `claim_C8_counterexample` a
zero-valued allowance can still be rendered when its rate is positive. -/
theorem claim_C8_formatters_pure_and_zero_omission :
    (∀ c₁ c₂ : SalaryService.SalaryResult, c₁ = c₂ →
      SalaryService.format_salary_report c₁ = SalaryService.format_salary_report c₂) ∧
    (∀ d₁ d₂ : AnnualBonusService.AnnualBonusResult, d₁ = d₂ →
      AnnualBonusService.format_annual_bonus_report d₁ =
        AnnualBonusService.format_annual_bonus_report d₂) ∧
    (∀ (i : SalaryService.SalaryInput) (r : SalaryService.SalaryResult),
      SalaryService.calculate_salary i = .ok r →
      (r.night_shift_payment = 0 →
        ("🌙 Доплата за ночные (" ++ fmtFixed r.night_hours 1 ++ " ч): " ++
          fmtFixed r.night_shift_payment 2 ++ " ₽\n") ∉ SalaryService.salaryReportLines r) ∧
      (r.regional_allowance_rate = 0 →
        ("📍 Региональная надбавка (" ++ fmtFixed r.regional_allowance_rate 1 ++ "%): " ++
          fmtFixed r.regional_allowance 2 ++ " ₽\n") ∉ SalaryService.salaryReportLines r) ∧
      (r.northern_allowance_rate = 0 →
        ("❄️ Северная надбавка (" ++ fmtFixed r.northern_allowance_rate 1 ++ "%): " ++
          fmtFixed r.northern_allowance 2 ++ " ₽\n") ∉ SalaryService.salaryReportLines r)) ∧
    (∀ (j : AnnualBonusService.AnnualBonusInput) (s : AnnualBonusService.AnnualBonusResult),
      AnnualBonusService.calculate_annual_bonus j = .ok s →
      (s.regional_allowance_rate = 0 →
        ("📍 Региональная надбавка (" ++ fmtFixed s.regional_allowance_rate 1 ++
          "%) (E211): " ++ fmtFixed s.regional_allowance 2 ++ " ₽\n") ∉
          AnnualBonusService.annualReportLines s) ∧
      (s.northern_allowance_rate = 0 →
        ("❄️ Северная надбавка (" ++ fmtFixed s.northern_allowance_rate 1 ++
          "%) (E212): " ++ fmtFixed s.northern_allowance 2 ++ " ₽\n") ∉
          AnnualBonusService.annualReportLines s)) := by
  refine ⟨fun c₁ c₂ h => by rw [h], fun d₁ d₂ h => by rw [h], ?_, ?_⟩
  · intro i r h
    obtain ⟨hv, rfl⟩ := SalaryService.calculate_salary_ok_inv h
    have hr0 : 0 < i.hourly_rate := hv.1
    refine ⟨?_, ?_, ?_⟩
    · intro hz hmem
      have hnh : 0 ≤ pyOr i.night_hours 0 :=
        SalaryService.pyOr_nonneg le_rfl hv.2.2.2.1
      have hz' : pyOr i.night_hours 0 * i.hourly_rate * (40 / 100) = 0 := by
        simpa [SalaryService.salaryDerivation, SalaryService.NIGHT_SHIFT_RATE] using hz
      have hng : ¬ (0 < (SalaryService.salaryDerivation i.hourly_rate i.days_worked
          (pyOr i.night_hours 0) (pyOr i.idle_days 0) (pyOr i.travel_days 0)
          (pyOr i.holiday_days 0) (pyOr i.additional_payments 0)
          (pyOr i.regional_allowance_rate 0)
          (pyOr i.northern_allowance_rate 0)).night_hours) := by
        simp only [SalaryService.salaryDerivation]
        intro hpos
        nlinarith [mul_pos (mul_pos hpos hr0) (show (0:ℚ) < 40 / 100 by norm_num)]
      simp only [SalaryService.salaryReportLines, List.mem_append, List.mem_cons,
        List.mem_singleton, mem_ite_singleton, List.not_mem_nil, or_false, false_or,
        or_assoc] at hmem
      rcases hmem with h|h|h|h|h|h|h|h|h|h|h|h|h|h|h|h|h|h|h|h
      all_goals first
      | exact absurd h.1 hng
      | exact absurd h (ne_of_strHead_beq rfl)
      | exact absurd h.2 (ne_of_strHead_beq rfl)
    · intro hz hmem
      have hng : ¬ (0 < (SalaryService.salaryDerivation i.hourly_rate i.days_worked
          (pyOr i.night_hours 0) (pyOr i.idle_days 0) (pyOr i.travel_days 0)
          (pyOr i.holiday_days 0) (pyOr i.additional_payments 0)
          (pyOr i.regional_allowance_rate 0)
          (pyOr i.northern_allowance_rate 0)).regional_allowance_rate) := by
        rw [hz]
        exact lt_irrefl 0
      simp only [SalaryService.salaryReportLines, List.mem_append, List.mem_cons,
        List.mem_singleton, mem_ite_singleton, List.not_mem_nil, or_false, false_or,
        or_assoc] at hmem
      rcases hmem with h|h|h|h|h|h|h|h|h|h|h|h|h|h|h|h|h|h|h|h
      all_goals first
      | exact absurd h.1 hng
      | exact absurd h (ne_of_strHead_beq rfl)
      | exact absurd h.2 (ne_of_strHead_beq rfl)
    · intro hz hmem
      have hng : ¬ (0 < (SalaryService.salaryDerivation i.hourly_rate i.days_worked
          (pyOr i.night_hours 0) (pyOr i.idle_days 0) (pyOr i.travel_days 0)
          (pyOr i.holiday_days 0) (pyOr i.additional_payments 0)
          (pyOr i.regional_allowance_rate 0)
          (pyOr i.northern_allowance_rate 0)).northern_allowance_rate) := by
        rw [hz]
        exact lt_irrefl 0
      simp only [SalaryService.salaryReportLines, List.mem_append, List.mem_cons,
        List.mem_singleton, mem_ite_singleton, List.not_mem_nil, or_false, false_or,
        or_assoc] at hmem
      rcases hmem with h|h|h|h|h|h|h|h|h|h|h|h|h|h|h|h|h|h|h|h
      all_goals first
      | exact absurd h.1 hng
      | exact absurd h (ne_of_strHead_beq rfl)
      | exact absurd h.2 (ne_of_strHead_beq rfl)
  · intro j s h
    obtain ⟨hv, t, ht, rfl⟩ := AnnualBonusService.calculate_annual_bonus_ok_inv h
    refine ⟨?_, ?_⟩
    · intro hz hmem
      have hng : ¬ (0 < (AnnualBonusService.annualDerivation j.hourly_rate
          j.months_in_company j.monthly_days
          (pyOr j.monthly_bonus_rate AnnualBonusService.DEFAULT_MONTHLY_BONUS_RATE) t
          (pyOr j.kpi_coefficient AnnualBonusService.DEFAULT_KPI_COEFFICIENT)
          (pyOr j.correction_coefficient AnnualBonusService.DEFAULT_CORRECTION_COEFFICIENT)
          (pyOr j.regional_allowance_rate 0)
          (pyOr j.northern_allowance_rate 0)).regional_allowance_rate) := by
        rw [hz]
        exact lt_irrefl 0
      simp only [AnnualBonusService.annualReportLines, AnnualBonusService.annualDerivation,
        List.mem_append, List.mem_cons, List.mem_singleton, mem_ite_singleton,
        List.not_mem_nil, or_false, false_or, or_assoc, List.mem_map, List.mem_filter,
        List.mem_range, decide_eq_true_eq] at hmem
      rcases hmem with h|h|h|h|h|h|h|h|⟨md, ⟨⟨k, hk, rfl⟩, hdays⟩, h⟩|h|h|h|h|h|⟨hg,h⟩|⟨hg,h⟩|h|h|h|h
      all_goals first
      | exact absurd hg hng
      | exact absurd h (ne_of_strHead_beq rfl)
      | (interval_cases k <;> exact absurd h (ne_of_strHead_beq rfl))
    · intro hz hmem
      have hng : ¬ (0 < (AnnualBonusService.annualDerivation j.hourly_rate
          j.months_in_company j.monthly_days
          (pyOr j.monthly_bonus_rate AnnualBonusService.DEFAULT_MONTHLY_BONUS_RATE) t
          (pyOr j.kpi_coefficient AnnualBonusService.DEFAULT_KPI_COEFFICIENT)
          (pyOr j.correction_coefficient AnnualBonusService.DEFAULT_CORRECTION_COEFFICIENT)
          (pyOr j.regional_allowance_rate 0)
          (pyOr j.northern_allowance_rate 0)).northern_allowance_rate) := by
        rw [hz]
        exact lt_irrefl 0
      simp only [AnnualBonusService.annualReportLines, AnnualBonusService.annualDerivation,
        List.mem_append, List.mem_cons, List.mem_singleton, mem_ite_singleton,
        List.not_mem_nil, or_false, false_or, or_assoc, List.mem_map, List.mem_filter,
        List.mem_range, decide_eq_true_eq] at hmem
      rcases hmem with h|h|h|h|h|h|h|h|⟨md, ⟨⟨k, hk, rfl⟩, hdays⟩, h⟩|h|h|h|h|h|⟨hg,h⟩|⟨hg,h⟩|h|h|h|h
      all_goals first
      | exact absurd hg hng
      | exact absurd h (ne_of_strHead_beq rfl)
      | (interval_cases k <;> exact absurd h (ne_of_strHead_beq rfl))
